import Mathlib

/-!
Verification of the MarketReady scoring engine.

This file gives a shallow embedding, in Lean 4, of the scoring core of the
`backend/app/services` package (readiness aggregation, evidence verification,
market stress test, snapshot cache lookup, Adzuna benchmark degradation
ladder, market alignment, engineering signal), and proves or refutes the
stated properties of those functions.

Modelling conventions:
* Python floats are modelled by `ℚ`, except where the source computes a
  square root or a logarithm, which are modelled in `ℝ`.
* Python's `round(x, d)` (round half to even) is modelled by `roundToD d`.
* Python's `str.strip`, `str.lower` and string comparison are modelled by
  `py_strip`, `py_lower` and `py_str_lt` over the underlying character lists.
* Database rows and HTTP responses are modelled as explicit list/record
  inputs; each record carries exactly the fields the scoring code reads.
* Timestamps are modelled by their age relative to "now" (`created_days_ago`
  for proofs, `age_minutes_raw` for snapshot rows), since the code only ever
  uses differences from the current time.
-/

/-! ### Generic numeric helpers -/

/-- Python's banker's rounding (`round(x)` → nearest integer, ties to even). -/
def roundHE {α : Type} [LinearOrderedField α] [FloorRing α] (x : α) : ℤ :=
  if x - ⌊x⌋ < 1/2 then ⌊x⌋
  else if 1/2 < x - ⌊x⌋ then ⌊x⌋ + 1
  else if ⌊x⌋ % 2 = 0 then ⌊x⌋ else ⌊x⌋ + 1

/-- Python's `round(x, d)`: round half to even at `d` decimal places. -/
def roundToD {α : Type} [LinearOrderedField α] [FloorRing α] (d : ℕ) (x : α) : α :=
  (roundHE (x * 10 ^ d) : α) / 10 ^ d

/-- Python's `math.ceil` on an exact rational. -/
def pyceil (x : ℚ) : ℤ := -(⌊-x⌋)

/-- Python's `str.strip()` (drop leading/trailing whitespace). -/
def py_strip (s : String) : String :=
  ⟨((s.data.dropWhile Char.isWhitespace).reverse.dropWhile Char.isWhitespace).reverse⟩

/-- Python's `str.lower()`. -/
def py_lower (s : String) : String := ⟨s.data.map Char.toLower⟩

/-- Lexicographic comparison of character lists (Python string `<`). -/
def chars_lt : List Char → List Char → Bool
  | [], [] => false
  | [], _ :: _ => true
  | _ :: _, [] => false
  | a :: as, b :: bs => if a < b then true else if b < a then false else chars_lt as bs

/-- Python string comparison `a < b` (code-point lexicographic). -/
def py_str_lt (a b : String) : Bool := chars_lt a.data b.data

/-- `pat` occurs as a contiguous sublist (Python `pat in s`). -/
def list_has_infix (pat : List Char) : List Char → Bool
  | [] => pat.isEmpty
  | a :: rest => pat.isPrefixOf (a :: rest) || list_has_infix pat rest

/-- Python `pat in s` on strings. -/
def str_contains_sub (s pat : String) : Bool := list_has_infix pat.data s.data

/-- `market_stress._clamp_score`: `max(0.0, min(100.0, value))`. -/
def _clamp_score (value : ℚ) : ℚ := max 0 (min 100 value)

/-- `_clamp_score` on the real-valued paths (volatility uses a square root). -/
def _clamp_scoreR (value : ℝ) : ℝ := max 0 (min 100 value)

/-- Python insertion step for `sort_by` below. -/
def insert_by {α : Type} (gt : α → α → Bool) (a : α) : List α → List α
  | [] => [a]
  | b :: rest => if gt a b then a :: b :: rest else b :: insert_by gt a rest

/-- Model of Python `sorted(..., reverse=True)` for a strict "greater"
comparator `gt` that is total on the elements at hand (all the uses below
sort by a key tuple whose last component is a distinct string id). -/
def sort_by {α : Type} (gt : α → α → Bool) : List α → List α
  | [] => []
  | a :: rest => insert_by gt a (sort_by gt rest)

/-! ### `services/readiness.py`: data model -/

/-- A checklist item row, with the fields `calculate_readiness` reads. -/
structure ChecklistItemRow where
  id : ℕ
  tier : String
  is_critical : Bool
  title : String
deriving DecidableEq

/-- A proof row, with the fields read by `calculate_readiness` and
`_evidence_verification_score`. `created_days_ago = none` models a proof with
no `created_at`; otherwise it is `(now - created_at).days`. `repo_verified`
models `bool(metadata_json.get("repo_verified"))`. -/
structure ProofRow where
  status : String
  checklist_item_id : ℕ
  proof_type : String
  created_days_ago : Option ℤ
  repo_verified : Bool
deriving DecidableEq

/-- Ids of checklist items having a proof with status `"verified"`. -/
def completed_item_ids (proofs : List ProofRow) : List ℕ :=
  (proofs.filter (fun p => p.status == "verified")).map (·.checklist_item_id)

/-- `readiness._recency_bonus`. The most recent verified proof corresponds to
the minimum `created_days_ago` (`days = (now - max created_at).days`). -/
def _recency_bonus (proofs : List ProofRow) : ℚ :=
  let valid := proofs.filter (fun p => p.status == "verified")
  if valid.isEmpty then 0
  else
    match (valid.filterMap (·.created_days_ago)).min? with
    | none => 0
    | some days =>
        if days ≤ 0 then 0.1
        else if 180 ≤ days then 0
        else roundToD 3 (0.1 * (1 - (days : ℚ) / 180))

/-- The `DEPLOYMENT_BONUS` term of `calculate_readiness`. -/
def _deployment_bonus (proofs : List ProofRow) : ℚ :=
  if proofs.any (fun p => p.proof_type == "deployed_url") then 0.1 else 0

/-- Output fields of `calculate_readiness` used by the properties below. -/
structure ReadinessChecklistResult where
  score : ℚ
  band : String
  capped : Bool
  cap_reason : Option String
deriving DecidableEq

/-- Titles of critical non-negotiable items with no verified proof. -/
def missing_critical_titles (items : List ChecklistItemRow) (proofs : List ProofRow) :
    List String :=
  ((items.filter (fun i => i.tier == "non_negotiable")).filter
    (fun i => i.is_critical && !((completed_item_ids proofs).contains i.id))).map (·.title)

/-- `readiness._has_unmet_critical_non_negotiable`. -/
def _has_unmet_critical_non_negotiable (items : List ChecklistItemRow)
    (proofs : List ProofRow) : Bool :=
  (items.filter (fun i => i.tier == "non_negotiable")).any
    (fun i => i.is_critical && !((completed_item_ids proofs).contains i.id))

/-- `readiness.calculate_readiness` (checklist sub-score). -/
def calculate_readiness (items : List ChecklistItemRow) (proofs : List ProofRow) :
    ReadinessChecklistResult :=
  let completed := completed_item_ids proofs
  let non_negotiables := items.filter (fun i => i.tier == "non_negotiable")
  let strong_signals := items.filter (fun i => i.tier == "strong_signal")
  let completed_n : ℚ := ((non_negotiables.filter (fun i => completed.contains i.id)).length : ℕ)
  let completed_s : ℚ := ((strong_signals.filter (fun i => completed.contains i.id)).length : ℕ)
  let n : ℚ := (max non_negotiables.length 1 : ℕ)
  let s : ℚ := (max strong_signals.length 1 : ℕ)
  let base0 := 0.6 * (completed_n / n) + 0.3 * (completed_s / s)
      + _recency_bonus proofs + _deployment_bonus proofs
  let has_missing := _has_unmet_critical_non_negotiable items proofs
  let base1 := if has_missing then min base0 0.75 else base0
  let base2 := min (max base1 0) 1
  { score := roundToD 1 (base2 * 100)
    band :=
      if 0.85 ≤ base2 then "Market Ready"
      else if 0.65 ≤ base2 then "Competitive but risky"
      else "Focus gaps"
    capped := has_missing
    cap_reason :=
      if has_missing then
        some ("Missing critical non-negotiable(s): "
          ++ String.intercalate ", " (missing_critical_titles items proofs))
      else none }

/-- `readiness._band_from_score`. -/
def _band_from_score (score : ℚ) : String :=
  if 85 ≤ score then "Market Ready"
  else if 65 ≤ score then "Competitive but risky"
  else "Focus gaps"

/-- Output fields of `calculate_unified_readiness` used below. -/
structure UnifiedReadinessResult where
  score : ℚ
  checklist_score : ℚ
  band : String
  capped : Bool
  cap_reason : Option String
deriving DecidableEq

/-- `readiness.calculate_unified_readiness`, with the engineering and market
alignment component scores as inputs (in the source they are produced by
`compute_engineering_signal` and `compute_market_alignment`, modelled
separately below). -/
def calculate_unified_readiness (items : List ChecklistItemRow) (proofs : List ProofRow)
    (engineering_score market_alignment_score : ℚ) : UnifiedReadinessResult :=
  let checklist := calculate_readiness items proofs
  let checklist_score := checklist.score
  let final0 := 0.65 * checklist_score + 0.20 * engineering_score
      + 0.15 * market_alignment_score
  let unmet := _has_unmet_critical_non_negotiable items proofs
  let final1 := if unmet then min final0 85 else final0
  let capped := checklist.capped || unmet
  let cap_reason :=
    if unmet then
      match checklist.cap_reason with
      | some reason =>
          if str_contains_sub reason "Final score capped at 85" then some reason
          else some (reason
            ++ ". Final score capped at 85 due to unmet critical requirement(s).")
      | none => some "Final score capped at 85 due to unmet critical requirement(s)."
    else checklist.cap_reason
  let final2 := roundToD 1 (min (max final1 0) 100)
  { score := final2
    checklist_score := roundToD 1 checklist_score
    band := _band_from_score final2
    capped := capped
    cap_reason := if capped then cap_reason else checklist.cap_reason }

/-! ### `services/market_stress.py`: evidence verification and final score -/

/-- `market_stress._evidence_verification_score` (score component only; the
counts dictionary it also returns is the triple used inside the formula). -/
def _evidence_verification_score (proofs : List ProofRow) : ℚ :=
  if proofs.isEmpty then 0
  else
    let total : ℚ := (proofs.length : ℕ)
    let verified : ℚ := ((proofs.filter (fun p => p.status == "verified")).length : ℕ)
    let repo_verified : ℚ := ((proofs.filter (·.repo_verified)).length : ℕ)
    roundToD 2 (max 0 (min 100 ((verified / total * 0.7 + repo_verified / total * 0.3) * 100)))

/-- The skill-overlap component of `compute_market_stress_test`
(`overlap_count = len({s for s in required_skills if s in verified_skill_names})`,
then `clamp((overlap_count / len(required_skills)) * 100)`, `0.0` if the
required list is empty). -/
def stress_skill_overlap_score (required_skills verified_skill_names : List String) : ℚ :=
  if required_skills.isEmpty then 0
  else
    _clamp_score
      ((((required_skills.filter
            (fun s => verified_skill_names.contains s)).dedup.length : ℕ) /
          (required_skills.length : ℚ)) * 100)

/-- The final composite of `compute_market_stress_test`:
`round(clamp(0.40*skill_overlap + 0.30*clamp(vacancy_index) + 0.30*clamp(evidence)), 2)`,
with the evidence score and benchmark vacancy index as inputs. -/
def stress_final_score (required_skills verified_skill_names : List String)
    (evidence_score vacancy_index : ℚ) : ℚ :=
  roundToD 2 (_clamp_score
    (0.40 * stress_skill_overlap_score required_skills verified_skill_names
      + 0.30 * _clamp_score vacancy_index
      + 0.30 * _clamp_score evidence_score))

/-! ### `services/market_stress.py`: snapshot store lookup -/

/-- A `MarketRawIngestion` row as `_load_snapshot` sees it, for a fixed
source kind. `snapshot_key` is `metadata_json["snapshot_key"]`;
`payload_is_dict` models `isinstance(metadata_json["payload"], dict)`;
`age_minutes_raw = none` models a row whose snapshot timestamp and
`fetched_at` are both missing/unparseable, otherwise it is
`(now - timestamp).total_seconds() / 60`. -/
structure SnapshotRow where
  snapshot_key : String
  payload_is_dict : Bool
  age_minutes_raw : Option ℚ
deriving DecidableEq

/-- `market_stress._snapshot_age_minutes`: `round(max(0.0, minutes), 1)`,
`none` when there is no timestamp. -/
def _snapshot_age_minutes (age_minutes_raw : Option ℚ) : Option ℚ :=
  age_minutes_raw.map (fun m => roundToD 1 (max 0 m))

/-- The per-row acceptance test of the `_load_snapshot` scan loop: key
matches, payload is a dict, and the age exists and is within the TTL. -/
def snapshot_row_ok (key : String) (max_age_minutes : ℤ) (row : SnapshotRow) : Bool :=
  (row.snapshot_key == key) && row.payload_is_dict &&
    (match _snapshot_age_minutes row.age_minutes_raw with
     | none => false
     | some age => decide (age ≤ (max_age_minutes : ℚ)))

/-- The `for row in rows` loop of `_load_snapshot` (`continue` on any failed
check, return the first accepted row). -/
def _load_snapshot_scan (key : String) (max_age_minutes : ℤ) :
    List SnapshotRow → Option SnapshotRow
  | [] => none
  | row :: rest =>
      if snapshot_row_ok key max_age_minutes row then some row
      else _load_snapshot_scan key max_age_minutes rest

/-- `market_stress._load_snapshot`. `rows` is the query result for the given
source kind, ordered by `fetched_at` descending (most recent first); the
query is limited to the 250 most recent rows. -/
def _load_snapshot (rows : List SnapshotRow) (key : String) (max_age_hours : ℤ) :
    Option SnapshotRow :=
  _load_snapshot_scan key (max 1 (max_age_hours * 60)) (rows.take 250)

/-! ### `services/market_stress.py`: Adzuna benchmark degradation ladder -/

/-- Outcome of the history portion of `fetch_adzuna_benchmarks`: the
`query_mode`, the role/location strings that succeeded and the history points
used as `volatility_points`. -/
structure AdzunaHistoryOutcome where
  adzuna_query_mode : String
  adzuna_query_used : String
  adzuna_location_used : String
  volatility_points : List ℚ
deriving DecidableEq

/-- Stages 1-4 of `fetch_adzuna_benchmarks`. `fetch role loc` models
`_fetch_history_points` (an exception is the same as an empty list: the code
catches it and moves on); a stage succeeds when it yields `≥ 2` points.
`exact_role = role_candidates[0]`, `rewritten_roles = role_candidates[1:]`,
`exact_location = location_candidates[0]`,
`widened_locations = location_candidates[1:]`. `none` means all four history
stages failed and the code falls through to stage 5 (proxy-from-search). -/
def adzuna_history_ladder (fetch : String → String → List ℚ) (exact_role : String)
    (rewritten_roles : List String) (exact_location : String)
    (widened_locations : List String) : Option AdzunaHistoryOutcome :=
  if 2 ≤ (fetch exact_role exact_location).length then
    some ⟨"exact", exact_role, exact_location, fetch exact_role exact_location⟩
  else
    match rewritten_roles.find? (fun role => decide (2 ≤ (fetch role exact_location).length)) with
    | some role => some ⟨"role_rewrite", role, exact_location, fetch role exact_location⟩
    | none =>
      match widened_locations.find?
          (fun loc => decide (2 ≤ (fetch exact_role loc).length)) with
      | some loc => some ⟨"geo_widen", exact_role, loc, fetch exact_role loc⟩
      | none =>
        match (List.product rewritten_roles widened_locations).find?
            (fun p => decide (2 ≤ (fetch p.1 p.2).length)) with
        | some p => some ⟨"geo_widen", p.1, p.2, fetch p.1 p.2⟩
        | none => none

/-! ### `services/market_stress.py`: benchmark metrics from a history series -/

/-- `first = max(volatility_points[0]["y"], 1.0)` in the history-success
branch of `fetch_adzuna_benchmarks`. -/
def history_first (points : List ℚ) : ℚ := max (points.headD 0) 1

/-- `last = volatility_points[-1]["y"]`. -/
def history_last (points : List ℚ) : ℚ := points.getLastD 0

/-- `vacancy_index = _clamp_score((last / first) * 50.0)` (history branch). -/
def history_vacancy_index (points : List ℚ) : ℚ :=
  _clamp_score ((history_last points / history_first points) * 50)

/-- `vacancy_growth_percent = ((last - first) / first) * 100.0`. -/
def history_growth_percent (points : List ℚ) : ℚ :=
  ((history_last points - history_first points) / history_first points) * 100

/-- `series = [p["y"] for p in volatility_points if p["y"] > 0]`. -/
def history_positive_series (points : List ℚ) : List ℚ :=
  points.filter (fun y => decide (0 < y))

/-- Arithmetic mean of a list of rationals (`sum(series) / len(series)`). -/
def listMean (l : List ℚ) : ℚ := l.sum / (l.length : ℚ)

/-- Population variance (`sum((v - mean) ** 2 for v in series) / len(series)`). -/
def listVariance (l : List ℚ) : ℚ :=
  ((l.map (fun v => (v - listMean l) ^ 2)).sum) / (l.length : ℚ)

/-- `volatility_score` of the history branch: `0.0` unless the positive
sub-series has at least 2 points, else
`_clamp_score((std_dev / max(mean, 1.0)) * 100.0)` with
`std_dev = variance ** 0.5`. -/
noncomputable def history_volatility_score (points : List ℚ) : ℝ :=
  let series := history_positive_series points
  if 2 ≤ series.length then
    _clamp_scoreR ((Real.sqrt ((listVariance series : ℚ) : ℝ) /
      max ((listMean series : ℚ) : ℝ) 1) * 100)
  else 0

/-- `trend_label` of the history branch (computed from the unrounded
vacancy index). -/
def history_trend_label (points : List ℚ) : String :=
  if 60 ≤ history_vacancy_index points then "heating_up"
  else if history_vacancy_index points ≤ 40 then "cooling_down"
  else "neutral"

/-- The `vacancy_index` field of the returned `MarketBenchmarks`
(`round(vacancy_index, 2)`). -/
def benchmark_vacancy_index (points : List ℚ) : ℚ :=
  roundToD 2 (history_vacancy_index points)

/-- The `vacancy_growth_percent` field of the returned `MarketBenchmarks`. -/
def benchmark_growth_percent (points : List ℚ) : ℚ :=
  roundToD 2 (history_growth_percent points)

/-- Modelled from the spec's words, for comparison with the source: §4.3
"vacancy_index = clamp(100×last/first×0.5)" with `first` and `last` "the
first and last point values" (no flooring of `first` at 1). -/
def spec_vacancy_index (points : List ℚ) : ℚ :=
  _clamp_score (100 * history_last points / points.headD 0 * (1/2))

/-- Modelled from the spec's words, for comparison with the source: §4.3
"growth_percent = (last-first)/first×100" with `first` the first point value. -/
def spec_growth_percent (points : List ℚ) : ℚ :=
  (history_last points - points.headD 0) / points.headD 0 * 100

/-! ### `services/market_alignment.py` -/

/-- A `MarketSignal` row with the fields `compute_market_alignment` reads.
`skill_id = none` models a NULL `skill_id` (filtered out by the query);
`frequency`/`source_count` are nullable columns. -/
structure MarketSignalRow where
  skill_id : Option String
  frequency : Option ℚ
  source_count : Option ℤ
deriving DecidableEq

/-- `market_alignment._to_skill_ids`: strip each value, keep the non-empty
ones (set semantics: only membership is used below). -/
def _to_skill_ids (values : List String) : List String :=
  (values.map py_strip).filter (fun s => !(s == ""))

/-- The `(str(skill_id), max(float(frequency or 0.0), 0.0))` pairs of the
signal rows whose `skill_id` is not NULL (the query filter). -/
def signal_weight_pairs (signals : List MarketSignalRow) : List (String × ℚ) :=
  signals.filterMap (fun s => s.skill_id.map (fun id => (id, max (s.frequency.getD 0) 0)))

/-- One `demand_by_skill[skill_id] = demand_by_skill.get(skill_id, 0.0) + w`
update, preserving dict insertion order. -/
def add_demand : List (String × ℚ) → String → ℚ → List (String × ℚ)
  | [], k, w => [(k, w)]
  | (k', w') :: rest, k, w =>
      if k' == k then (k', w' + w) :: rest else (k', w') :: add_demand rest k w

/-- The `demand_by_skill` dict built from a list of `(skill_id, weight)`
pairs. -/
def demand_dict (pairs : List (String × ℚ)) : List (String × ℚ) :=
  pairs.foldl (fun acc p => add_demand acc p.1 p.2) []

/-- Dictionary lookup with default `0.0`. -/
def demand_get (dict : List (String × ℚ)) (k : String) : ℚ :=
  ((dict.find? (fun p => p.1 == k)).map Prod.snd).getD 0

/-- `max(demand_by_skill.values())`. All stored values are `≥ 0`, so folding
from `0` agrees with Python's `max` on the non-empty dict. -/
def max_frequency (dict : List (String × ℚ)) : ℚ := (dict.map Prod.snd).foldl max 0

/-- `normalized[skill_id]` (`freq / max_frequency if max_frequency > 0 else 0.0`). -/
def normalized_weight (dict : List (String × ℚ)) (k : String) : ℚ :=
  if 0 < max_frequency dict then demand_get dict k / max_frequency dict else 0

/-- The sort key comparison of `ordered_skill_ids`: Python
`sorted(..., key=lambda sid: (normalized[sid], demand[sid], sid), reverse=True)`
on distinct ids, i.e. "strictly greater key tuple goes first". -/
def align_gt (dict : List (String × ℚ)) (a b : String) : Bool :=
  if normalized_weight dict a ≠ normalized_weight dict b then
    decide (normalized_weight dict b < normalized_weight dict a)
  else if demand_get dict a ≠ demand_get dict b then
    decide (demand_get dict b < demand_get dict a)
  else py_str_lt b a

/-- `ordered_skill_ids` of `compute_market_alignment`. -/
def ordered_skill_ids (dict : List (String × ℚ)) : List String :=
  sort_by (align_gt dict) (dict.map Prod.fst)

/-- `top_count = max(1, ceil(len(ordered_skill_ids) * 0.30))`. -/
def top_count (k : ℕ) : ℕ := max 1 (pyceil ((k : ℚ) * 0.30)).toNat

/-- Result fields of `compute_market_alignment`. `top_demand_skills` is
modelled by the list of skill ids of its entries (the source decorates each
id with a name and the weights; the entries are in 1-1 correspondence with
`high_demand_skill_ids`). -/
structure MarketAlignmentResult where
  score : ℚ
  coverage_ratio : ℚ
  top_demand_skills : List String
  high_demand_skill_ids : List String
deriving DecidableEq

/-- `market_alignment.compute_market_alignment`. `signals` is the query
result scoped to the pathway (the `skill_id IS NOT NULL` filter is applied
here, matching the query). -/
def compute_market_alignment (signals : List MarketSignalRow)
    (verified_skill_ids : List String) : MarketAlignmentResult :=
  let verified_set := _to_skill_ids verified_skill_ids
  let pairs := signal_weight_pairs signals
  if pairs.isEmpty then ⟨0, 0, [], []⟩
  else
    let dict := demand_dict pairs
    if dict.isEmpty then ⟨0, 0, [], []⟩
    else
      let ordered := ordered_skill_ids dict
      let tc := top_count ordered.length
      let high := ordered.take tc
      let matched : ℚ := ((high.dedup.filter (fun id => verified_set.contains id)).length : ℕ)
      let coverage := matched / (tc : ℚ)
      ⟨roundToD 1 (coverage * 100), roundToD 3 coverage, high, high⟩

/-- Modelled from the spec's words, for comparison with the source: §4.7
"weight = source_count + frequency×50" per signal record (the source's
`compute_market_alignment` instead sums `max(frequency, 0)` alone; the
`source_count + frequency*50` weighting appears only in the unrelated
`ai.py` guidance module). -/
def spec_signal_weight_pairs (signals : List MarketSignalRow) : List (String × ℚ) :=
  signals.filterMap (fun s =>
    s.skill_id.map (fun id => (id, ((s.source_count.getD 0 : ℤ) : ℚ) + s.frequency.getD 0 * 50)))

/-- Modelled from the spec's words: the alignment score computed with the
spec's weight formula, the rest of the pipeline unchanged. -/
def spec_alignment_score (signals : List MarketSignalRow)
    (verified_skill_ids : List String) : ℚ :=
  let verified_set := _to_skill_ids verified_skill_ids
  let pairs := spec_signal_weight_pairs signals
  if pairs.isEmpty then 0
  else
    let dict := demand_dict pairs
    let ordered := ordered_skill_ids dict
    let tc := top_count ordered.length
    let high := ordered.take tc
    let matched : ℚ := ((high.dedup.filter (fun id => verified_set.contains id)).length : ℕ)
    100 * (matched / (tc : ℚ))

/-! ### `services/engineering_signal.py` -/

/-- A repository entry of the GitHub repos response, with the fields the
analyzer reads. `updated_recent` models
`updated_at parsed ∧ updated_at ≥ now - 90 days`; `readme_status` is the HTTP
status of the readme probe for this repository (an exception while fetching
behaves like a status that is neither 200 nor 403/429, i.e. skip). -/
structure GitHubRepoRow where
  name : String
  updated_recent : Bool
  stargazers_count : ℤ
  language : String
  readme_status : ℕ
deriving DecidableEq

/-- The provider world `compute_engineering_signal` interacts with for one
identity. `raises` models an exception escaping the `httpx` block;
`user_public_repos` is `user_payload.get("public_repos")`;
`repos_is_list` models `isinstance(repos_response.json(), list)`. -/
structure GitHubEnv where
  raises : Bool
  user_status : ℕ
  user_public_repos : Option ℤ
  repos_status : ℕ
  repos_is_list : Bool
  repos : List GitHubRepoRow
deriving DecidableEq

/-- The payload of `compute_engineering_signal` (`score` plus the metrics
dict, flattened). -/
structure EngineeringPayload where
  score : ℝ
  public_repos : ℤ
  recent_repo_count : ℤ
  total_stars : ℤ
  unique_languages : ℤ
  readme_presence_ratio : ℚ

/-- `engineering_signal._default_payload`. -/
noncomputable def _default_payload : EngineeringPayload :=
  { score := 0, public_repos := 0, recent_repo_count := 0, total_stars := 0
    unique_languages := 0, readme_presence_ratio := 0 }

/-- The `(found, checked)` loop of `engineering_signal._readme_ratio`
(skip empty names before counting; count, then 200 → found, 403/429 → break,
anything else → continue). -/
def _readme_loop : List GitHubRepoRow → ℕ → ℕ → ℕ × ℕ
  | [], found, checked => (found, checked)
  | repo :: rest, found, checked =>
      if py_strip repo.name == "" then _readme_loop rest found checked
      else if repo.readme_status == 200 then _readme_loop rest (found + 1) (checked + 1)
      else if repo.readme_status == 403 || repo.readme_status == 429 then (found, checked + 1)
      else _readme_loop rest found (checked + 1)

/-- `engineering_signal._readme_ratio` (sampling the first 10 repos). -/
def _readme_ratio (repos : List GitHubRepoRow) : ℚ :=
  let fc := _readme_loop (repos.take 10) 0 0
  if fc.2 = 0 then 0 else roundToD 3 ((fc.1 : ℚ) / (fc.2 : ℚ))

/-- `math.log1p` over the reals. -/
noncomputable def log1p (x : ℝ) : ℝ := Real.log (1 + x)

/-- `engineering_signal._compute_score`. -/
noncomputable def _compute_score (public_repos recent_repo_count total_stars
    unique_languages : ℤ) (readme_presence_ratio : ℚ) : ℝ :=
  let repo_component : ℝ := ((min public_repos 30 : ℤ) : ℝ) / 30 * 25
  let recent_component : ℝ := ((min recent_repo_count 20 : ℤ) : ℝ) / 20 * 25
  let star_component : ℝ := min (log1p ((max total_stars 0 : ℤ) : ℝ) / log1p 200) 1 * 20
  let language_component : ℝ := ((min unique_languages 10 : ℤ) : ℝ) / 10 * 15
  let readme_component : ℝ := min (max ((readme_presence_ratio : ℚ) : ℝ) 0) 1 * 15
  roundToD 1 (min (max (repo_component + recent_component + star_component
    + language_component + readme_component) 0) 100)

/-- `engineering_signal.compute_engineering_signal` for a cache-miss call
with a non-empty username: the returned payload together with the payload
written to the cache (`none` would mean no cache write; every path of the
provider interaction writes one). -/
noncomputable def compute_engineering_signal (env : GitHubEnv) :
    EngineeringPayload × Option EngineeringPayload :=
  if env.raises then (_default_payload, some _default_payload)
  else if env.user_status ≠ 200 then (_default_payload, some _default_payload)
  else if env.repos_status ≠ 200 then (_default_payload, some _default_payload)
  else if ¬env.repos_is_list then (_default_payload, some _default_payload)
  else
    let repos := env.repos
    let public_repos : ℤ :=
      match env.user_public_repos with
      | some v => if v ≠ 0 then v else (repos.length : ℤ)
      | none => (repos.length : ℤ)
    let recent_repo_count : ℤ := ((repos.filter (·.updated_recent)).length : ℕ)
    let total_stars : ℤ := (repos.map (·.stargazers_count)).sum
    let unique_languages : ℤ :=
      (((((repos.map (fun r => py_strip r.language)).filter
        (fun s => !(s == ""))).map py_lower).dedup).length : ℕ)
    let ratio := _readme_ratio repos
    let payload : EngineeringPayload :=
      { score := _compute_score public_repos recent_repo_count total_stars
          unique_languages ratio
        public_repos := public_repos, recent_repo_count := recent_repo_count
        total_stars := total_stars, unique_languages := unique_languages
        readme_presence_ratio := ratio }
    (payload, some payload)

/-- "Any provider failure" of the engineering-signal analysis: an exception,
a non-200 user response, a non-200 repos response, or a non-list repos body. -/
def provider_failure (env : GitHubEnv) : Bool :=
  env.raises || env.user_status != 200 || env.repos_status != 200 || !env.repos_is_list

/-! ### Helper lemmas -/

theorem roundHE_le {α : Type} [LinearOrderedField α] [FloorRing α] (x : α) :
    (roundHE x : α) ≤ x + 1/2 := by
  have h1 : (⌊x⌋ : α) ≤ x := Int.floor_le x
  have h2 : x < ⌊x⌋ + 1 := Int.lt_floor_add_one x
  unfold roundHE
  split
  · linarith
  next h =>
    split
    next h' => push_cast; linarith
    next h' =>
      have : x - ⌊x⌋ = 1/2 := le_antisymm (le_of_not_lt h') (le_of_not_lt h)
      split <;> push_cast <;> linarith

theorem le_roundHE {α : Type} [LinearOrderedField α] [FloorRing α] (x : α) :
    x - 1/2 ≤ (roundHE x : α) := by
  have h1 : (⌊x⌋ : α) ≤ x := Int.floor_le x
  have h2 : x < ⌊x⌋ + 1 := Int.lt_floor_add_one x
  unfold roundHE
  split
  next h => linarith
  next h =>
    split
    next h' => push_cast; linarith
    next h' =>
      have : x - ⌊x⌋ = 1/2 := le_antisymm (le_of_not_lt h') (le_of_not_lt h)
      split <;> push_cast <;> linarith

theorem roundToD_le_of_mul_le {α : Type} [LinearOrderedField α] [FloorRing α]
    {d : ℕ} {x : α} {m : ℤ} (h : x * 10 ^ d ≤ (m : α)) :
    roundToD d x ≤ (m : α) / 10 ^ d := by
  have hb := roundHE_le (x * 10 ^ d)
  have hlt : ((roundHE (x * 10 ^ d) : ℤ) : α) < ((m + 1 : ℤ) : α) := by push_cast; linarith
  have hint : roundHE (x * 10 ^ d) ≤ m := by
    have := Int.cast_lt.mp hlt
    omega
  have hc : ((roundHE (x * 10 ^ d) : ℤ) : α) ≤ (m : α) := Int.cast_le.mpr hint
  unfold roundToD
  have hpos : (0 : α) < 10 ^ d := by positivity
  exact div_le_div_of_nonneg_right hc hpos.le

theorem le_roundToD_of_le {α : Type} [LinearOrderedField α] [FloorRing α]
    {d : ℕ} {x : α} {m : ℤ} (h : (m : α) ≤ x * 10 ^ d) :
    (m : α) / 10 ^ d ≤ roundToD d x := by
  have hb := le_roundHE (x * 10 ^ d)
  have hlt : ((m - 1 : ℤ) : α) < ((roundHE (x * 10 ^ d) : ℤ) : α) := by push_cast; linarith
  have hint : m ≤ roundHE (x * 10 ^ d) := by
    have := Int.cast_lt.mp hlt
    omega
  have hc : ((m : ℤ) : α) ≤ ((roundHE (x * 10 ^ d) : ℤ) : α) := Int.cast_le.mpr hint
  unfold roundToD
  have hpos : (0 : α) < 10 ^ d := by positivity
  exact div_le_div_of_nonneg_right hc hpos.le

theorem _clamp_score_eq_self {x : ℚ} (h0 : 0 ≤ x) (h1 : x ≤ 100) : _clamp_score x = x := by
  unfold _clamp_score
  rw [min_eq_right h1, max_eq_right h0]

theorem _clamp_score_le {x c : ℚ} (h : x ≤ c) (hc : 0 ≤ c) : _clamp_score x ≤ c := by
  unfold _clamp_score
  have : min 100 x ≤ c := (min_le_right 100 x).trans h
  exact max_le hc this

theorem _clamp_score_nonneg (x : ℚ) : 0 ≤ _clamp_score x := le_max_left 0 _

theorem _clamp_score_le_100 (x : ℚ) : _clamp_score x ≤ 100 :=
  max_le (by norm_num) (min_le_left 100 x)

theorem filter_dedup_length_eq_inter_card (l v : List String) :
    ((l.filter (fun s => v.contains s)).dedup).length
      = (l.toFinset ∩ v.toFinset).card := by
  classical
  rw [← List.card_toFinset]
  congr 1
  ext a
  simp [List.mem_filter, List.elem_iff]

theorem dedup_filter_length_eq_inter_card (l v : List String) :
    ((l.dedup.filter (fun s => v.contains s)).length)
      = (l.toFinset ∩ v.toFinset).card := by
  classical
  have hnd : (l.dedup.filter (fun s => v.contains s)).Nodup :=
    (l.nodup_dedup).filter _
  rw [← List.toFinset_card_of_nodup hnd]
  congr 1
  ext a
  simp [List.mem_filter, List.elem_iff]

/-! ### Claim C1 -/

/-- Claim C1 (amended): for every required-skills list, verified-skill set,
evidence score in [0,100] and vacancy index in [0,100]: the stress-test
skill_overlap is 0 when the required list is empty, and otherwise equals
100 × |required ∩ verified| / |required|; the final stress-test score equals
0.40×skill_overlap + 0.30×evidence + 0.30×vacancy_index clamped to [0,100]
and then rounded to two decimal places (the rounding is the amendment); in
particular, for required=["python","sql","rest api","cloud fundamentals"],
verified={"python","sql"}, evidence=50 and vacancy_index=80 the final score
is exactly 59.0. -/
theorem stress_test_scoring (required verified : List String) (e v : ℚ)
    (he0 : 0 ≤ e) (he1 : e ≤ 100) (hv0 : 0 ≤ v) (hv1 : v ≤ 100) :
    (required.isEmpty = true → stress_skill_overlap_score required verified = 0)
    ∧ (required.isEmpty = false →
        stress_skill_overlap_score required verified
          = 100 * ((required.toFinset ∩ verified.toFinset).card : ℚ) / (required.length : ℚ))
    ∧ stress_final_score required verified e v
        = roundToD 2 (_clamp_score
            (0.40 * stress_skill_overlap_score required verified + 0.30 * v + 0.30 * e))
    ∧ stress_final_score ["python", "sql", "rest api", "cloud fundamentals"]
        ["python", "sql"] 50 80 = 59 := by
  refine ⟨fun h => by simp [stress_skill_overlap_score, h], fun h => ?_, ?_, ?_⟩
  · have hn : 0 < required.length := by
      cases required with
      | nil => simp at h
      | cons a t => simp
    have hk : ((required.filter (fun s => verified.contains s)).dedup).length
        ≤ required.length :=
      le_trans (List.Sublist.length_le ((required.filter _).dedup_sublist))
        (List.Sublist.length_le (List.filter_sublist required))
    have hval : (0 : ℚ) ≤ ((((required.filter (fun s => verified.contains s)).dedup.length : ℕ)) /
        (required.length : ℚ)) * 100 := by positivity
    have hval' : ((((required.filter (fun s => verified.contains s)).dedup.length : ℕ)) /
        (required.length : ℚ)) * 100 ≤ 100 := by
      have hle : (((required.filter (fun s => verified.contains s)).dedup.length : ℕ) : ℚ)
          ≤ (required.length : ℚ) := by exact_mod_cast hk
      have hpos : (0 : ℚ) < (required.length : ℚ) := by exact_mod_cast hn
      have : (((required.filter (fun s => verified.contains s)).dedup.length : ℕ) : ℚ) /
          (required.length : ℚ) ≤ 1 := by
        rw [div_le_one hpos]; exact hle
      nlinarith
    unfold stress_skill_overlap_score
    rw [if_neg (by simp [h])]
    rw [_clamp_score_eq_self hval hval']
    rw [filter_dedup_length_eq_inter_card]
    ring
  · unfold stress_final_score
    rw [_clamp_score_eq_self hv0 hv1, _clamp_score_eq_self he0 he1]
  · have hlen : ((["python", "sql", "rest api", "cloud fundamentals"].filter
        (fun s => (["python", "sql"] : List String).contains s)).dedup).length = 2 := rfl
    have hov : stress_skill_overlap_score
        ["python", "sql", "rest api", "cloud fundamentals"] ["python", "sql"] = 50 := by
      unfold stress_skill_overlap_score
      rw [if_neg (by simp)]
      rw [hlen]
      norm_num [_clamp_score]
    unfold stress_final_score
    rw [hov]
    norm_num [_clamp_score, roundToD, roundHE]

/-- Claim C1 witness: the theorem applied at the spec's own scenario. -/
theorem stress_test_scoring_witness :
    stress_final_score ["python", "sql", "rest api", "cloud fundamentals"]
      ["python", "sql"] 50 80 = 59 :=
  (stress_test_scoring ["python", "sql", "rest api", "cloud fundamentals"]
    ["python", "sql"] 50 80 (by norm_num) (by norm_num) (by norm_num) (by norm_num)).2.2.2

/-- Claim C1 counterexample: for required=["a","b","c"], verified={"a"},
evidence=0 and vacancy_index=0 the code returns 13.33 (two-decimal
rounding), while the claim's clamped weighted sum is 40/3 = 13.333...; the
final score as claimed (without rounding) is therefore wrong. -/
theorem stress_test_scoring_counterexample :
    stress_final_score ["a", "b", "c"] ["a"] 0 0 = 1333/100
    ∧ _clamp_score (0.40 * (100 * ((1 : ℚ)) / 3) + 0.30 * 0 + 0.30 * 0) = 40/3
    ∧ stress_final_score ["a", "b", "c"] ["a"] 0 0
        ≠ _clamp_score (0.40 * (100 * ((1 : ℚ)) / 3) + 0.30 * 0 + 0.30 * 0) := by
  have hlen : ((["a", "b", "c"].filter
      (fun s => (["a"] : List String).contains s)).dedup).length = 1 := rfl
  have hov : stress_skill_overlap_score ["a", "b", "c"] ["a"] = 100/3 := by
    unfold stress_skill_overlap_score
    rw [if_neg (by simp)]
    rw [hlen]
    norm_num [_clamp_score]
  have h1 : stress_final_score ["a", "b", "c"] ["a"] 0 0 = 1333/100 := by
    unfold stress_final_score
    rw [hov]
    norm_num [_clamp_score, roundToD, roundHE]
  refine ⟨h1, by norm_num [_clamp_score], ?_⟩
  rw [h1]
  norm_num [_clamp_score]


/-! ### Claim C2 -/

theorem unified_score_eq (items : List ChecklistItemRow) (proofs : List ProofRow)
    (e a : ℚ) :
    (calculate_unified_readiness items proofs e a).score
      = roundToD 1 (min (max
          (if _has_unmet_critical_non_negotiable items proofs then
            min (0.65 * (calculate_readiness items proofs).score + 0.20 * e + 0.15 * a) 85
          else
            0.65 * (calculate_readiness items proofs).score + 0.20 * e + 0.15 * a) 0) 100) := rfl

theorem band_eq_of_score (items : List ChecklistItemRow) (proofs : List ProofRow)
    (e a : ℚ) :
    (calculate_unified_readiness items proofs e a).band
      = _band_from_score ((calculate_unified_readiness items proofs e a).score) := rfl

/-- Claim C2 (amended): the unified readiness final score equals
0.65×checklist + 0.20×engineering + 0.15×alignment, capped at 85 when a
critical requirement is unmet, clamped to [0,100] and — the amendment —
rounded to one decimal place; the band assigned to the resulting final score
is "Market Ready" when it is ≥85, "Competitive but risky" when it is ≥65 and
below 85, and "Focus gaps" otherwise. -/
theorem unified_readiness_scoring (items : List ChecklistItemRow) (proofs : List ProofRow)
    (e a : ℚ) :
    (calculate_unified_readiness items proofs e a).score
      = roundToD 1 (min (max
          (if _has_unmet_critical_non_negotiable items proofs then
            min (0.65 * (calculate_readiness items proofs).score + 0.20 * e + 0.15 * a) 85
          else
            0.65 * (calculate_readiness items proofs).score + 0.20 * e + 0.15 * a) 0) 100)
    ∧ (calculate_unified_readiness items proofs e a).band
        = _band_from_score ((calculate_unified_readiness items proofs e a).score)
    ∧ (85 ≤ (calculate_unified_readiness items proofs e a).score →
        (calculate_unified_readiness items proofs e a).band = "Market Ready")
    ∧ (65 ≤ (calculate_unified_readiness items proofs e a).score →
        (calculate_unified_readiness items proofs e a).score < 85 →
        (calculate_unified_readiness items proofs e a).band = "Competitive but risky")
    ∧ ((calculate_unified_readiness items proofs e a).score < 65 →
        (calculate_unified_readiness items proofs e a).band = "Focus gaps") := by
  have hband := band_eq_of_score items proofs e a
  refine ⟨unified_score_eq items proofs e a, hband, fun h85 => ?_, fun h65 h85 => ?_,
    fun h65 => ?_⟩
  · rw [hband]
    unfold _band_from_score
    rw [if_pos h85]
  · rw [hband]
    unfold _band_from_score
    rw [if_neg (by linarith), if_pos h65]
  · rw [hband]
    unfold _band_from_score
    rw [if_neg (by linarith), if_neg (by linarith)]

/-- Claim C2 witness: with no checklist items or proofs, engineering 100 and
alignment 100, the final score is 0.20×100 + 0.15×100 = 35.0 and the band is
"Focus gaps". -/
theorem unified_readiness_scoring_witness :
    (calculate_unified_readiness [] [] 100 100).score = 35
    ∧ (calculate_unified_readiness [] [] 100 100).band = "Focus gaps" := by
  have hc : (calculate_readiness [] []).score = 0 := by
    simp only [calculate_readiness]
    norm_num [completed_item_ids, _recency_bonus, _deployment_bonus,
      _has_unmet_critical_non_negotiable, roundToD, roundHE]
  have hs : (calculate_unified_readiness [] [] 100 100).score = 35 := by
    rw [(unified_readiness_scoring [] [] 100 100).1, hc]
    norm_num [_has_unmet_critical_non_negotiable, roundToD, roundHE]
  refine ⟨hs, ?_⟩
  have hb := (unified_readiness_scoring [] [] 100 100).2.2.2.2
  rw [hs] at hb
  exact hb (by norm_num)

/-- Claim C2 counterexample: with no checklist items, engineering 33.3 and
alignment 0, the clamped composite is 0.20×33.3 = 6.66, but the returned
final score is 6.7 (one-decimal rounding); the final score as claimed (the
clamped weighted sum, with no rounding) is therefore wrong. -/
theorem unified_readiness_scoring_counterexample :
    (calculate_unified_readiness [] [] (333/10) 0).score = 67/10
    ∧ min (max (0.65 * (calculate_readiness [] []).score
        + 0.20 * (333/10 : ℚ) + 0.15 * 0) 0) 100 = 666/100
    ∧ (calculate_unified_readiness [] [] (333/10) 0).score
        ≠ min (max (0.65 * (calculate_readiness [] []).score
            + 0.20 * (333/10 : ℚ) + 0.15 * 0) 0) 100 := by
  have hc : (calculate_readiness [] []).score = 0 := by
    simp only [calculate_readiness]
    norm_num [completed_item_ids, _recency_bonus, _deployment_bonus,
      _has_unmet_critical_non_negotiable, roundToD, roundHE]
  have hs : (calculate_unified_readiness [] [] (333/10) 0).score = 67/10 := by
    rw [unified_score_eq [] [] (333/10) 0, hc]
    norm_num [_has_unmet_critical_non_negotiable, roundToD, roundHE]
  refine ⟨hs, by rw [hc]; norm_num, ?_⟩
  rw [hs, hc]
  norm_num

/-! ### Claim C3 -/

/-- Claim C3 (confirmed): whenever some critical non-negotiable checklist
item has no verified proof, the unified readiness result has final score ≤ 85
and capped = true, regardless of the engineering and alignment components
(and of whatever the checklist component evaluates to). -/
theorem unified_readiness_critical_cap (items : List ChecklistItemRow)
    (proofs : List ProofRow) (e a : ℚ)
    (h : _has_unmet_critical_non_negotiable items proofs = true) :
    (calculate_unified_readiness items proofs e a).score ≤ 85
    ∧ (calculate_unified_readiness items proofs e a).capped = true := by
  constructor
  · have hsc := unified_score_eq items proofs e a
    rw [h, if_pos rfl] at hsc
    rw [hsc]
    have h1 : min (0.65 * (calculate_readiness items proofs).score
        + 0.20 * e + 0.15 * a) 85 ≤ 85 := min_le_right _ _
    have h2 : max (min (0.65 * (calculate_readiness items proofs).score
        + 0.20 * e + 0.15 * a) 85) 0 ≤ 85 := max_le h1 (by norm_num)
    have hin : min (max (min (0.65 * (calculate_readiness items proofs).score
        + 0.20 * e + 0.15 * a) 85) 0) 100 ≤ 85 := (min_le_left _ _).trans h2
    calc roundToD 1 (min (max (min (0.65 * (calculate_readiness items proofs).score
            + 0.20 * e + 0.15 * a) 85) 0) 100)
        ≤ ((850 : ℤ) : ℚ) / 10 ^ 1 := roundToD_le_of_mul_le (by push_cast; linarith)
      _ = 85 := by norm_num
  · have hcap : (calculate_unified_readiness items proofs e a).capped
        = ((calculate_readiness items proofs).capped
            || _has_unmet_critical_non_negotiable items proofs) := rfl
    rw [hcap, h, Bool.or_true]

/-- Claim C3 witness: one unmet critical non-negotiable item, arbitrary
out-of-range component scores. -/
theorem unified_readiness_critical_cap_witness :
    (calculate_unified_readiness [⟨1, "non_negotiable", true, "Critical item"⟩]
        [] 200 300).score ≤ 85
    ∧ (calculate_unified_readiness [⟨1, "non_negotiable", true, "Critical item"⟩]
        [] 200 300).capped = true :=
  unified_readiness_critical_cap [⟨1, "non_negotiable", true, "Critical item"⟩] [] 200 300
    (by decide)

/-! ### Claim C10 -/

theorem readiness_cap_round_le (b : ℚ) :
    roundToD 1 ((min (max (min b 0.75) 0) 1) * 100) ≤ 75 := by
  have h1 : min b 0.75 ≤ 0.75 := min_le_right _ _
  have h2 : max (min b 0.75) 0 ≤ 0.75 := max_le h1 (by norm_num)
  have h3 : min (max (min b 0.75) 0) 1 ≤ 0.75 := (min_le_left _ _).trans h2
  calc roundToD 1 ((min (max (min b 0.75) 0) 1) * 100)
      ≤ ((750 : ℤ) : ℚ) / 10 ^ 1 := roundToD_le_of_mul_le (by push_cast; nlinarith)
    _ = 75 := by norm_num

/-- Claim C10 (amended): when some critical non-negotiable checklist item has
no verified proof, the checklist sub-score returned by calculate_readiness is
itself capped at 75 (base min-ed with 0.75) with capped=true and a cap_reason
naming the missing critical items — a stricter cap than the spec's stated ≤85
on the final composite. With engineering and alignment components at most
100, the raw unified composite is then at most 0.65×75+0.20×100+0.15×100 =
83.75, and the returned unified final score (rounded to one decimal, ties to
even) is at most 83.8 — the amendment: the returned score can be 83.8, not
83.75, because round(83.75, 1) = 83.8. -/
theorem checklist_critical_cap (items : List ChecklistItemRow) (proofs : List ProofRow)
    (e a : ℚ) (h : _has_unmet_critical_non_negotiable items proofs = true)
    (he : e ≤ 100) (ha : a ≤ 100) :
    (calculate_readiness items proofs).score ≤ 75
    ∧ (calculate_readiness items proofs).capped = true
    ∧ (calculate_readiness items proofs).cap_reason
        = some ("Missing critical non-negotiable(s): "
            ++ String.intercalate ", " (missing_critical_titles items proofs))
    ∧ 0.65 * (calculate_readiness items proofs).score + 0.20 * e + 0.15 * a ≤ 83.75
    ∧ (calculate_unified_readiness items proofs e a).score ≤ 83.8 := by
  have hscore : (calculate_readiness items proofs).score ≤ 75 := by
    simp only [calculate_readiness, h, eq_self_iff_true, if_true]
    exact readiness_cap_round_le _
  have hcap : (calculate_readiness items proofs).capped = true := by
    have : (calculate_readiness items proofs).capped
        = _has_unmet_critical_non_negotiable items proofs := rfl
    rw [this, h]
  have hreason : (calculate_readiness items proofs).cap_reason
      = some ("Missing critical non-negotiable(s): "
          ++ String.intercalate ", " (missing_critical_titles items proofs)) := by
    have : (calculate_readiness items proofs).cap_reason
        = if _has_unmet_critical_non_negotiable items proofs then
            some ("Missing critical non-negotiable(s): "
              ++ String.intercalate ", " (missing_critical_titles items proofs))
          else none := rfl
    rw [this, h, if_pos rfl]
  have hcomp : 0.65 * (calculate_readiness items proofs).score + 0.20 * e + 0.15 * a
      ≤ 83.75 := by nlinarith
  refine ⟨hscore, hcap, hreason, hcomp, ?_⟩
  have hsc := unified_score_eq items proofs e a
  rw [h, if_pos rfl] at hsc
  rw [hsc]
  have h1 : min (0.65 * (calculate_readiness items proofs).score
      + 0.20 * e + 0.15 * a) 85 ≤ 83.75 := (min_le_left _ _).trans hcomp
  have h2 : max (min (0.65 * (calculate_readiness items proofs).score
      + 0.20 * e + 0.15 * a) 85) 0 ≤ 83.75 := max_le h1 (by norm_num)
  have h3 : min (max (min (0.65 * (calculate_readiness items proofs).score
      + 0.20 * e + 0.15 * a) 85) 0) 100 ≤ 83.75 := (min_le_left _ _).trans h2
  calc roundToD 1 (min (max (min (0.65 * (calculate_readiness items proofs).score
          + 0.20 * e + 0.15 * a) 85) 0) 100)
      ≤ ((838 : ℤ) : ℚ) / 10 ^ 1 := roundToD_le_of_mul_le (by push_cast; nlinarith)
    _ = 83.8 := by norm_num

/-- Claim C10 witness: one unmet critical item plus enough completed work and
bonuses that the uncapped base would be 0.8; the theorem applies with
engineering and alignment at 100. -/
theorem checklist_critical_cap_witness :
    (calculate_readiness
        [⟨1, "non_negotiable", true, "Critical A"⟩, ⟨2, "non_negotiable", false, "B"⟩,
          ⟨3, "strong_signal", false, "C"⟩]
        [⟨"verified", 2, "deployed_url", some 0, false⟩,
          ⟨"verified", 3, "github_repo", none, false⟩]).score ≤ 75
    ∧ (calculate_unified_readiness
        [⟨1, "non_negotiable", true, "Critical A"⟩, ⟨2, "non_negotiable", false, "B"⟩,
          ⟨3, "strong_signal", false, "C"⟩]
        [⟨"verified", 2, "deployed_url", some 0, false⟩,
          ⟨"verified", 3, "github_repo", none, false⟩] 100 100).score ≤ 83.8 := by
  have h := checklist_critical_cap
    [⟨1, "non_negotiable", true, "Critical A"⟩, ⟨2, "non_negotiable", false, "B"⟩,
      ⟨3, "strong_signal", false, "C"⟩]
    [⟨"verified", 2, "deployed_url", some 0, false⟩,
      ⟨"verified", 3, "github_repo", none, false⟩]
    100 100 (by decide) (by norm_num) (by norm_num)
  exact ⟨h.1, h.2.2.2.2⟩

/-- Claim C10 counterexample: with checklist base 0.8 capped to 0.75
(checklist score exactly 75.0), engineering 100 and alignment 100, the raw
composite is exactly 83.75, and Python's round(83.75, 1) (ties to even)
returns 83.8 — strictly more than the claimed bound of 83.75 on the unified
final score. -/
theorem checklist_critical_cap_counterexample :
    _has_unmet_critical_non_negotiable
        [⟨1, "non_negotiable", true, "Critical A"⟩, ⟨2, "non_negotiable", false, "B"⟩,
          ⟨3, "strong_signal", false, "C"⟩]
        [⟨"verified", 2, "deployed_url", some 0, false⟩,
          ⟨"verified", 3, "github_repo", none, false⟩] = true
    ∧ (calculate_unified_readiness
        [⟨1, "non_negotiable", true, "Critical A"⟩, ⟨2, "non_negotiable", false, "B"⟩,
          ⟨3, "strong_signal", false, "C"⟩]
        [⟨"verified", 2, "deployed_url", some 0, false⟩,
          ⟨"verified", 3, "github_repo", none, false⟩] 100 100).score = 83.8
    ∧ ¬((calculate_unified_readiness
        [⟨1, "non_negotiable", true, "Critical A"⟩, ⟨2, "non_negotiable", false, "B"⟩,
          ⟨3, "strong_signal", false, "C"⟩]
        [⟨"verified", 2, "deployed_url", some 0, false⟩,
          ⟨"verified", 3, "github_repo", none, false⟩] 100 100).score ≤ 83.75) := by
  have hu : _has_unmet_critical_non_negotiable
      [⟨1, "non_negotiable", true, "Critical A"⟩, ⟨2, "non_negotiable", false, "B"⟩,
        ⟨3, "strong_signal", false, "C"⟩]
      [⟨"verified", 2, "deployed_url", some 0, false⟩,
        ⟨"verified", 3, "github_repo", none, false⟩] = true := by decide
  have e3 : ([⟨1, "non_negotiable", true, "Critical A"⟩, ⟨2, "non_negotiable", false, "B"⟩,
        ⟨3, "strong_signal", false, "C"⟩] : List ChecklistItemRow).filter
          (fun i => i.tier == "non_negotiable")
        = [⟨1, "non_negotiable", true, "Critical A"⟩, ⟨2, "non_negotiable", false, "B"⟩] := by
    decide
  have e4 : ([⟨1, "non_negotiable", true, "Critical A"⟩, ⟨2, "non_negotiable", false, "B"⟩,
        ⟨3, "strong_signal", false, "C"⟩] : List ChecklistItemRow).filter
          (fun i => i.tier == "strong_signal") = [⟨3, "strong_signal", false, "C"⟩] := by decide
  have e1 : ([⟨1, "non_negotiable", true, "Critical A"⟩,
        ⟨2, "non_negotiable", false, "B"⟩] : List ChecklistItemRow).filter
          (fun i => (completed_item_ids
            [⟨"verified", 2, "deployed_url", some 0, false⟩,
              ⟨"verified", 3, "github_repo", none, false⟩]).contains i.id)
        = [⟨2, "non_negotiable", false, "B"⟩] := by decide
  have e2 : ([⟨3, "strong_signal", false, "C"⟩] : List ChecklistItemRow).filter
          (fun i => (completed_item_ids
            [⟨"verified", 2, "deployed_url", some 0, false⟩,
              ⟨"verified", 3, "github_repo", none, false⟩]).contains i.id)
        = [⟨3, "strong_signal", false, "C"⟩] := by decide
  have er : _recency_bonus
      [⟨"verified", 2, "deployed_url", some 0, false⟩,
        ⟨"verified", 3, "github_repo", none, false⟩] = 0.1 := rfl
  have ed : _deployment_bonus
      [⟨"verified", 2, "deployed_url", some 0, false⟩,
        ⟨"verified", 3, "github_repo", none, false⟩] = 0.1 := rfl
  have hcs : (calculate_readiness
      [⟨1, "non_negotiable", true, "Critical A"⟩, ⟨2, "non_negotiable", false, "B"⟩,
        ⟨3, "strong_signal", false, "C"⟩]
      [⟨"verified", 2, "deployed_url", some 0, false⟩,
        ⟨"verified", 3, "github_repo", none, false⟩]).score = 75 := by
    simp only [calculate_readiness, hu, e3, e4, e1, e2, er, ed, eq_self_iff_true, if_true]
    norm_num [roundToD, roundHE]
  have hsc := unified_score_eq
      [⟨1, "non_negotiable", true, "Critical A"⟩, ⟨2, "non_negotiable", false, "B"⟩,
        ⟨3, "strong_signal", false, "C"⟩]
      [⟨"verified", 2, "deployed_url", some 0, false⟩,
        ⟨"verified", 3, "github_repo", none, false⟩] 100 100
  rw [hu, if_pos rfl, hcs] at hsc
  have hval : (calculate_unified_readiness
      [⟨1, "non_negotiable", true, "Critical A"⟩, ⟨2, "non_negotiable", false, "B"⟩,
        ⟨3, "strong_signal", false, "C"⟩]
      [⟨"verified", 2, "deployed_url", some 0, false⟩,
        ⟨"verified", 3, "github_repo", none, false⟩] 100 100).score = 83.8 := by
    rw [hsc]
    norm_num [roundToD, roundHE]
  exact ⟨hu, hval, by rw [hval]; norm_num⟩

/-! ### Claim C4 -/

/-- Claim C4 (amended): for every list of evidence records, the
evidence-verification score equals
100×(0.7×(fraction of records with status verified) + 0.3×(fraction of
records marked repo_verified)) rounded to two decimal places (the rounding is
the amendment), lies in [0,100], and is exactly 0 when the list is empty. -/
theorem evidence_verification_scoring (proofs : List ProofRow) :
    (proofs.isEmpty = true → _evidence_verification_score proofs = 0)
    ∧ (proofs.isEmpty = false →
        _evidence_verification_score proofs
          = roundToD 2 (100 * (0.7 * (((proofs.filter
                (fun p => p.status == "verified")).length : ℕ) / (proofs.length : ℚ))
              + 0.3 * (((proofs.filter (·.repo_verified)).length : ℕ) / (proofs.length : ℚ)))))
    ∧ 0 ≤ _evidence_verification_score proofs
    ∧ _evidence_verification_score proofs ≤ 100 := by
  have hmain : proofs.isEmpty = false →
      _evidence_verification_score proofs
        = roundToD 2 (100 * (0.7 * (((proofs.filter
              (fun p => p.status == "verified")).length : ℕ) / (proofs.length : ℚ))
            + 0.3 * (((proofs.filter (·.repo_verified)).length : ℕ) / (proofs.length : ℚ)))) := by
    intro h
    have ht : 0 < proofs.length := by
      cases proofs with
      | nil => simp at h
      | cons p rest => simp
    have htq : (0 : ℚ) < (proofs.length : ℚ) := by exact_mod_cast ht
    have hv : ((proofs.filter (fun p => p.status == "verified")).length : ℚ)
        ≤ (proofs.length : ℚ) := by exact_mod_cast List.length_filter_le _ _
    have hr : ((proofs.filter (·.repo_verified)).length : ℚ) ≤ (proofs.length : ℚ) := by
      exact_mod_cast List.length_filter_le _ _
    have hv1 : ((proofs.filter (fun p => p.status == "verified")).length : ℚ)
        / (proofs.length : ℚ) ≤ 1 := by rw [div_le_one htq]; exact hv
    have hr1 : ((proofs.filter (·.repo_verified)).length : ℚ) / (proofs.length : ℚ) ≤ 1 := by
      rw [div_le_one htq]; exact hr
    have hv0 : (0:ℚ) ≤ ((proofs.filter (fun p => p.status == "verified")).length : ℚ)
        / (proofs.length : ℚ) := by positivity
    have hr0 : (0:ℚ) ≤ ((proofs.filter (·.repo_verified)).length : ℚ)
        / (proofs.length : ℚ) := by positivity
    unfold _evidence_verification_score
    rw [if_neg (by simp [h])]
    dsimp only
    have hclamp : max 0 (min 100
        ((((proofs.filter (fun p => p.status == "verified")).length : ℕ)
            / (proofs.length : ℚ) * 0.7
          + (((proofs.filter (·.repo_verified)).length : ℕ) / (proofs.length : ℚ)) * 0.3)
          * 100))
        = (((proofs.filter (fun p => p.status == "verified")).length : ℕ)
            / (proofs.length : ℚ) * 0.7
          + (((proofs.filter (·.repo_verified)).length : ℕ) / (proofs.length : ℚ)) * 0.3)
          * 100 := by
      rw [min_eq_right (by nlinarith), max_eq_right (by positivity)]
    rw [hclamp]
    congr 1
    ring
  refine ⟨fun h => by simp [_evidence_verification_score, h], hmain, ?_, ?_⟩
  · cases h : proofs.isEmpty with
    | true => simp [_evidence_verification_score, h]
    | false =>
      unfold _evidence_verification_score
      rw [if_neg (by simp [h])]
      dsimp only
      calc (0:ℚ) = ((0 : ℤ) : ℚ) / 10 ^ 2 := by norm_num
        _ ≤ _ := le_roundToD_of_le (by push_cast; positivity)
  · cases h : proofs.isEmpty with
    | true => simp [_evidence_verification_score, h]
    | false =>
      unfold _evidence_verification_score
      rw [if_neg (by simp [h])]
      dsimp only
      have hle : max 0 (min 100
          ((((proofs.filter (fun p => p.status == "verified")).length : ℕ)
              / (proofs.length : ℚ) * 0.7
            + (((proofs.filter (·.repo_verified)).length : ℕ) / (proofs.length : ℚ)) * 0.3)
            * 100)) ≤ 100 := max_le (by norm_num) (min_le_left _ _)
      calc roundToD 2 _ ≤ ((10000 : ℤ) : ℚ) / 10 ^ 2 :=
            roundToD_le_of_mul_le (by push_cast; nlinarith)
        _ = 100 := by norm_num

/-- Claim C4 witness: three records, one verified, none repo-verified; the
theorem instantiated there gives score = round(100×0.7/3, 2) = 23.33. -/
theorem evidence_verification_scoring_witness :
    _evidence_verification_score
      [⟨"verified", 1, "doc", none, false⟩, ⟨"submitted", 2, "doc", none, false⟩,
        ⟨"submitted", 3, "doc", none, false⟩]
      = roundToD 2 (100 * (0.7 * ((([⟨"verified", 1, "doc", none, false⟩,
          ⟨"submitted", 2, "doc", none, false⟩,
          ⟨"submitted", 3, "doc", none, false⟩] : List ProofRow).filter
            (fun p => p.status == "verified")).length
          / (([⟨"verified", 1, "doc", none, false⟩, ⟨"submitted", 2, "doc", none, false⟩,
          ⟨"submitted", 3, "doc", none, false⟩] : List ProofRow).length : ℚ))
        + 0.3 * ((([⟨"verified", 1, "doc", none, false⟩,
          ⟨"submitted", 2, "doc", none, false⟩,
          ⟨"submitted", 3, "doc", none, false⟩] : List ProofRow).filter
            (·.repo_verified)).length
          / (([⟨"verified", 1, "doc", none, false⟩, ⟨"submitted", 2, "doc", none, false⟩,
          ⟨"submitted", 3, "doc", none, false⟩] : List ProofRow).length : ℚ)))) :=
  (evidence_verification_scoring
    [⟨"verified", 1, "doc", none, false⟩, ⟨"submitted", 2, "doc", none, false⟩,
      ⟨"submitted", 3, "doc", none, false⟩]).2.1 rfl

/-- Claim C4 counterexample: three records, one verified, none repo-verified:
the code returns 23.33 (two-decimal rounding) while the claim's exact formula
gives 70/3 = 23.333...; the score as claimed (without rounding) is wrong. -/
theorem evidence_verification_scoring_counterexample :
    _evidence_verification_score
      [⟨"verified", 1, "doc", none, false⟩, ⟨"submitted", 2, "doc", none, false⟩,
        ⟨"submitted", 3, "doc", none, false⟩] = 2333/100
    ∧ 100 * ((0.7 : ℚ) * (1/3) + 0.3 * (0/3)) = 70/3
    ∧ _evidence_verification_score
      [⟨"verified", 1, "doc", none, false⟩, ⟨"submitted", 2, "doc", none, false⟩,
        ⟨"submitted", 3, "doc", none, false⟩]
        ≠ 100 * ((0.7 : ℚ) * (1/3) + 0.3 * (0/3)) := by
  have f1 : (([⟨"verified", 1, "doc", none, false⟩, ⟨"submitted", 2, "doc", none, false⟩,
      ⟨"submitted", 3, "doc", none, false⟩] : List ProofRow).filter
        (fun p => p.status == "verified")).length = 1 := by decide
  have f2 : (([⟨"verified", 1, "doc", none, false⟩, ⟨"submitted", 2, "doc", none, false⟩,
      ⟨"submitted", 3, "doc", none, false⟩] : List ProofRow).filter
        (·.repo_verified)).length = 0 := by decide
  have hval : _evidence_verification_score
      [⟨"verified", 1, "doc", none, false⟩, ⟨"submitted", 2, "doc", none, false⟩,
        ⟨"submitted", 3, "doc", none, false⟩] = 2333/100 := by
    unfold _evidence_verification_score
    rw [if_neg (by simp)]
    dsimp only
    simp only [f1, f2]
    norm_num [roundToD, roundHE]
  exact ⟨hval, by norm_num, by rw [hval]; norm_num⟩

/-! ### Claim C5 -/

theorem _load_snapshot_scan_eq_find (key : String) (m : ℤ) (rows : List SnapshotRow) :
    _load_snapshot_scan key m rows = rows.find? (snapshot_row_ok key m) := by
  induction rows with
  | nil => rfl
  | cons r rest ih =>
    unfold _load_snapshot_scan
    cases h : snapshot_row_ok key m r with
    | true => rw [if_pos rfl, List.find?_cons_of_pos _ h]
    | false => rw [if_neg (by simp), List.find?_cons_of_neg _ (by simp [h]), ih]

theorem scan_replicate_none (key : String) (m : ℤ) (r : SnapshotRow)
    (hr : snapshot_row_ok key m r = false) (n : ℕ) :
    _load_snapshot_scan key m (List.replicate n r) = none := by
  induction n with
  | zero => rfl
  | succ k ih =>
    rw [List.replicate_succ]
    unfold _load_snapshot_scan
    rw [if_neg (by simp [hr]), ih]

/-- Claim C5 (amended): snapshot lookup scans only the 250 most recently
fetched rows of the source kind (ordered most recent first) and returns the
first row in that window whose key matches, whose payload is well-formed and
whose age is within the TTL — i.e. the most recent valid in-TTL record of
the scan window; any returned row is for the requested key, well-formed and
within the TTL (an expired snapshot is never returned as valid data); and if
every stored record for the key is older than the TTL the lookup returns
none. The amendment is the restriction of "most recent record" to the
250-row scan window and to well-formed rows. -/
theorem snapshot_lookup (rows : List SnapshotRow) (key : String) (h : ℤ) :
    _load_snapshot rows key h = (rows.take 250).find? (snapshot_row_ok key (max 1 (h * 60)))
    ∧ (∀ r, _load_snapshot rows key h = some r →
        r.snapshot_key = key ∧ r.payload_is_dict = true ∧ r ∈ rows.take 250 ∧
        ∃ age, _snapshot_age_minutes r.age_minutes_raw = some age
          ∧ age ≤ ((max 1 (h * 60) : ℤ) : ℚ))
    ∧ ((∀ r ∈ rows, r.snapshot_key = key →
          ∀ age, _snapshot_age_minutes r.age_minutes_raw = some age →
            ((max 1 (h * 60) : ℤ) : ℚ) < age) →
        _load_snapshot rows key h = none) := by
  have hfind : _load_snapshot rows key h
      = (rows.take 250).find? (snapshot_row_ok key (max 1 (h * 60))) :=
    _load_snapshot_scan_eq_find _ _ _
  refine ⟨hfind, fun r hr => ?_, fun hall => ?_⟩
  · rw [hfind] at hr
    have hp : snapshot_row_ok key (max 1 (h * 60)) r = true := List.find?_some hr
    have hmem : r ∈ rows.take 250 := List.mem_of_find?_eq_some hr
    unfold snapshot_row_ok at hp
    rw [Bool.and_eq_true, Bool.and_eq_true] at hp
    obtain ⟨⟨hkey, hdict⟩, hage⟩ := hp
    refine ⟨by simpa using hkey, hdict, hmem, ?_⟩
    cases hm : _snapshot_age_minutes r.age_minutes_raw with
    | none => rw [hm] at hage; simp at hage
    | some age =>
      rw [hm] at hage
      simp only [decide_eq_true_eq] at hage
      exact ⟨age, rfl, hage⟩
  · rw [hfind]
    apply List.find?_eq_none.mpr
    intro r hmem
    have hmem' : r ∈ rows := List.take_subset _ _ hmem
    intro hcon
    have hp : snapshot_row_ok key (max 1 (h * 60)) r = true := hcon
    unfold snapshot_row_ok at hp
    rw [Bool.and_eq_true, Bool.and_eq_true] at hp
    obtain ⟨⟨hkey, _⟩, hage⟩ := hp
    cases hm : _snapshot_age_minutes r.age_minutes_raw with
    | none => rw [hm] at hage; simp at hage
    | some age =>
      rw [hm] at hage
      simp only [decide_eq_true_eq] at hage
      have := hall r hmem' (by simpa using hkey) age hm
      linarith

/-- Claim C5 witness: a single fresh row for the key is found and satisfies
the guarantees of the lookup theorem. -/
theorem snapshot_lookup_witness :
    _load_snapshot [⟨"mri", true, some 0⟩] "mri" 24 = some ⟨"mri", true, some 0⟩
    ∧ (⟨"mri", true, some 0⟩ : SnapshotRow).snapshot_key = "mri"
    ∧ (⟨"mri", true, some 0⟩ : SnapshotRow).payload_is_dict = true := by
  have h := snapshot_lookup [⟨"mri", true, some 0⟩] "mri" 24
  have hok : snapshot_row_ok "mri" (max 1 (24 * 60)) ⟨"mri", true, some 0⟩ = true := by
    simp only [snapshot_row_ok, _snapshot_age_minutes, Option.map_some']
    have hround : roundToD 1 (max (0:ℚ) 0) = 0 := by norm_num [roundToD, roundHE]
    rw [hround]
    simp only [Bool.and_eq_true, decide_eq_true_eq]
    exact ⟨⟨by decide, trivial⟩, by norm_num⟩
  have hfind : _load_snapshot [⟨"mri", true, some 0⟩] "mri" 24
      = some ⟨"mri", true, some 0⟩ := by
    unfold _load_snapshot
    have htake : ([⟨"mri", true, some 0⟩] : List SnapshotRow).take 250
        = [⟨"mri", true, some 0⟩] := rfl
    rw [htake]
    unfold _load_snapshot_scan
    rw [hok, if_pos rfl]
  have hprops := h.2.1 _ hfind
  exact ⟨hfind, hprops.1, hprops.2.1⟩

/-- Claim C5 counterexample: with 250 more recently fetched rows of the same
source kind under a different key, a perfectly fresh record for the requested
key is invisible to the scan window: the lookup returns none even though the
most recent record for that key with age ≤ TTL exists in the store. -/
theorem snapshot_lookup_counterexample :
    _load_snapshot (List.replicate 250 ⟨"other", true, some 0⟩
      ++ [⟨"mri", true, some 0⟩]) "mri" 24 = none
    ∧ (⟨"mri", true, some 0⟩ : SnapshotRow)
        ∈ (List.replicate 250 ⟨"other", true, some 0⟩ ++ [⟨"mri", true, some 0⟩])
    ∧ snapshot_row_ok "mri" (max 1 (24 * 60)) ⟨"mri", true, some 0⟩ = true := by
  refine ⟨?_, List.mem_append_right _ (by simp), ?_⟩
  · unfold _load_snapshot
    rw [List.take_left' (List.length_replicate 250 _)]
    exact scan_replicate_none _ _ _ (by simp [snapshot_row_ok]) 250
  · simp only [snapshot_row_ok, _snapshot_age_minutes, Option.map_some']
    have hround : roundToD 1 (max (0:ℚ) 0) = 0 := by norm_num [roundToD, roundHE]
    rw [hround]
    simp only [Bool.and_eq_true, decide_eq_true_eq]
    exact ⟨⟨by decide, trivial⟩, by norm_num⟩

/-! ### Claim C6 -/

/-- Claim C6 (confirmed): the benchmark degradation ladder respects ladder
order and short-circuits at the first success: the outcome has
query_mode="exact" whenever the exact (role, location) pair yields a history
of ≥ 2 points; query_mode="role_rewrite" only when the exact pair fails but
some rewritten role at the exact location yields ≥ 2 points (the outcome
uses the first such rewrite, at the exact location); query_mode="geo_widen"
(stages 3 and 4) only when the exact pair and every rewritten role at the
exact location fail; and the proxy-from-search stage (stage 5, outcome
`none` here) is reached only when every stage-1..4 query fails. -/
theorem adzuna_ladder_order (fetch : String → String → List ℚ) (exact_role : String)
    (rewritten_roles : List String) (exact_location : String)
    (widened_locations : List String) :
    (2 ≤ (fetch exact_role exact_location).length →
      adzuna_history_ladder fetch exact_role rewritten_roles exact_location widened_locations
        = some ⟨"exact", exact_role, exact_location, fetch exact_role exact_location⟩)
    ∧ (∀ res, adzuna_history_ladder fetch exact_role rewritten_roles exact_location
          widened_locations = some res → res.adzuna_query_mode = "role_rewrite" →
        (fetch exact_role exact_location).length < 2
        ∧ res.adzuna_query_used ∈ rewritten_roles
        ∧ res.adzuna_location_used = exact_location
        ∧ 2 ≤ (fetch res.adzuna_query_used exact_location).length)
    ∧ (∀ res, adzuna_history_ladder fetch exact_role rewritten_roles exact_location
          widened_locations = some res → res.adzuna_query_mode = "geo_widen" →
        (fetch exact_role exact_location).length < 2
        ∧ ∀ role ∈ rewritten_roles, (fetch role exact_location).length < 2)
    ∧ (adzuna_history_ladder fetch exact_role rewritten_roles exact_location
          widened_locations = none →
        (fetch exact_role exact_location).length < 2
        ∧ (∀ role ∈ rewritten_roles, (fetch role exact_location).length < 2)
        ∧ (∀ loc ∈ widened_locations, (fetch exact_role loc).length < 2)
        ∧ (∀ role ∈ rewritten_roles, ∀ loc ∈ widened_locations,
            (fetch role loc).length < 2)) := by
  by_cases h1 : 2 ≤ (fetch exact_role exact_location).length
  · refine ⟨fun _ => ?_, fun res hres hmode => ?_, fun res hres hmode => ?_, fun hres => ?_⟩
    · unfold adzuna_history_ladder
      rw [if_pos h1]
    · unfold adzuna_history_ladder at hres
      rw [if_pos h1] at hres
      cases hres
      simp at hmode
    · unfold adzuna_history_ladder at hres
      rw [if_pos h1] at hres
      cases hres
      simp at hmode
    · unfold adzuna_history_ladder at hres
      rw [if_pos h1] at hres
      cases hres
  · have h1' : (fetch exact_role exact_location).length < 2 := lt_of_not_le h1
    refine ⟨fun h => absurd h h1, ?_, ?_, ?_⟩
    all_goals
      unfold adzuna_history_ladder
      rw [if_neg h1]
    · -- role_rewrite characterization
      intro res hres hmode
      cases hf : rewritten_roles.find?
          (fun role => decide (2 ≤ (fetch role exact_location).length)) with
      | some role =>
        rw [hf] at hres
        cases hres
        refine ⟨h1', List.mem_of_find?_eq_some hf, rfl, ?_⟩
        have := List.find?_some hf
        simpa using this
      | none =>
        rw [hf] at hres
        cases hg : widened_locations.find?
            (fun loc => decide (2 ≤ (fetch exact_role loc).length)) with
        | some loc => rw [hg] at hres; cases hres; simp at hmode
        | none =>
          rw [hg] at hres
          cases hp : (List.product rewritten_roles widened_locations).find?
              (fun p => decide (2 ≤ (fetch p.1 p.2).length)) with
          | some p => rw [hp] at hres; cases hres; simp at hmode
          | none => rw [hp] at hres; cases hres
    · -- geo_widen characterization
      intro res hres hmode
      cases hf : rewritten_roles.find?
          (fun role => decide (2 ≤ (fetch role exact_location).length)) with
      | some role =>
        rw [hf] at hres
        cases hres
        simp at hmode
      | none =>
        refine ⟨h1', fun role hrole => ?_⟩
        have := List.find?_eq_none.mp hf role hrole
        simpa using this
    · -- all stages fail
      intro hres
      cases hf : rewritten_roles.find?
          (fun role => decide (2 ≤ (fetch role exact_location).length)) with
      | some role => rw [hf] at hres; cases hres
      | none =>
        rw [hf] at hres
        cases hg : widened_locations.find?
            (fun loc => decide (2 ≤ (fetch exact_role loc).length)) with
        | some loc => rw [hg] at hres; cases hres
        | none =>
          rw [hg] at hres
          cases hp : (List.product rewritten_roles widened_locations).find?
              (fun p => decide (2 ≤ (fetch p.1 p.2).length)) with
          | some p => rw [hp] at hres; cases hres
          | none =>
            refine ⟨h1', fun role hrole => ?_, fun loc hloc => ?_,
              fun role hrole loc hloc => ?_⟩
            · have := List.find?_eq_none.mp hf role hrole
              simpa using this
            · have := List.find?_eq_none.mp hg loc hloc
              simpa using this
            · have := List.find?_eq_none.mp hp (role, loc)
                (List.mem_product.mpr ⟨hrole, hloc⟩)
              simpa using this

/-- Claim C6 witness: with a provider that always returns a two-point
history, the ladder stops at stage 1 with query_mode "exact". -/
theorem adzuna_ladder_order_witness :
    adzuna_history_ladder (fun _ _ => [(1 : ℚ), 2]) "backend engineer"
      ["backend developer", "software developer"] "Austin, TX" ["TX", "United States"]
      = some ⟨"exact", "backend engineer", "Austin, TX", [(1 : ℚ), 2]⟩ :=
  (adzuna_ladder_order (fun _ _ => [(1 : ℚ), 2]) "backend engineer"
    ["backend developer", "software developer"] "Austin, TX"
    ["TX", "United States"]).1 (by norm_num)

/-! ### Claim C7 -/

/-- Claim C7 (amended): for every history series of ≥2 points obtained by
ladder stages 1-4, with `last` the last point value and `first'` the first
point value floored at 1 (`max(points[0], 1.0)` — the amendment):
vacancy_index = clamp(100×last/first'×0.5); growth_percent =
(last−first')/first'×100; the vacancy index lies in [0,100]; volatility_score
= clamp(100×stddev/max(mean,1)) of the strictly positive points when there
are at least 2 of them and 0 otherwise (the divisor floor and the 2-point
requirement are amendments); trend_label is heating_up when vacancy_index ≥
60, cooling_down when ≤ 40, neutral otherwise; and the returned benchmark
fields round vacancy_index and growth_percent to two decimal places. -/
theorem history_benchmark_metrics (points : List ℚ) (_hn : 2 ≤ points.length) :
    history_vacancy_index points
      = _clamp_score (100 * history_last points / max (points.headD 0) 1 * (1/2))
    ∧ history_growth_percent points
      = (history_last points - max (points.headD 0) 1) / max (points.headD 0) 1 * 100
    ∧ 0 ≤ history_vacancy_index points ∧ history_vacancy_index points ≤ 100
    ∧ (2 ≤ (history_positive_series points).length →
        history_volatility_score points
          = _clamp_scoreR (100 * Real.sqrt ((listVariance (history_positive_series points) : ℚ))
              / max ((listMean (history_positive_series points) : ℚ) : ℝ) 1))
    ∧ ((history_positive_series points).length < 2 → history_volatility_score points = 0)
    ∧ (60 ≤ history_vacancy_index points → history_trend_label points = "heating_up")
    ∧ (history_vacancy_index points ≤ 40 → history_trend_label points = "cooling_down")
    ∧ (40 < history_vacancy_index points → history_vacancy_index points < 60 →
        history_trend_label points = "neutral")
    ∧ benchmark_vacancy_index points = roundToD 2 (history_vacancy_index points)
    ∧ benchmark_growth_percent points = roundToD 2 (history_growth_percent points) := by
  refine ⟨?_, ?_, _clamp_score_nonneg _, _clamp_score_le_100 _, ?_, ?_, ?_, ?_, ?_, rfl, rfl⟩
  · unfold history_vacancy_index history_first
    congr 1
    ring
  · unfold history_growth_percent history_first
    rfl
  · intro hs
    unfold history_volatility_score
    rw [if_pos hs]
    congr 1
    ring
  · intro hs
    unfold history_volatility_score
    rw [if_neg (by omega)]
  · intro h60
    unfold history_trend_label
    rw [if_pos h60]
  · intro h40
    unfold history_trend_label
    rw [if_neg (by linarith), if_pos h40]
  · intro h40 h60
    unfold history_trend_label
    rw [if_neg (by linarith), if_neg (by linarith)]

/-- Claim C7 witness: the series [1, 3] has vacancy index 100 (trend
heating_up) and volatility clamp(100×√1/max(2,1)) = 50. -/
theorem history_benchmark_metrics_witness :
    2 ≤ ([1, 3] : List ℚ).length
    ∧ history_trend_label [1, 3] = "heating_up"
    ∧ history_volatility_score [1, 3] = 50 := by
  have h := history_benchmark_metrics [1, 3] (by norm_num)
  have hvac : history_vacancy_index [1, 3] = 100 := by
    norm_num [history_vacancy_index, history_first, history_last, _clamp_score,
      List.getLastD, max_def, min_def]
  have hser : history_positive_series [1, 3] = [1, 3] := by
    norm_num [history_positive_series, List.filter_cons]
  refine ⟨by norm_num, h.2.2.2.2.2.2.1 (by rw [hvac]; norm_num), ?_⟩
  have hvol := h.2.2.2.2.1 (by rw [hser]; norm_num)
  rw [hser] at hvol
  have hmean : listMean [1, 3] = 2 := by
    norm_num [listMean, List.sum_cons]
  have hvar : listVariance [1, 3] = 1 := by
    norm_num [listVariance, listMean, List.sum_cons, List.map_cons]
  rw [hmean, hvar] at hvol
  rw [hvol]
  have hs1 : Real.sqrt ((1 : ℚ) : ℝ) = 1 := by
    rw [show ((1 : ℚ) : ℝ) = 1 by norm_num, Real.sqrt_one]
  rw [hs1]
  have hm : max ((2 : ℚ) : ℝ) 1 = ((2 : ℚ) : ℝ) := max_eq_left (by norm_num)
  rw [hm]
  norm_num [_clamp_scoreR, max_def, min_def]

/-- Claim C7 counterexample: for the series [0.5, 0.6] the code floors the
first point at 1 (`max(points[0], 1.0)`), giving vacancy index 30
(cooling_down) and growth −40%, while the claim's formulas with the actual
first point value give vacancy index 60 (heating_up) and growth +20%. -/
theorem history_benchmark_metrics_counterexample :
    history_vacancy_index [1/2, 3/5] = 30
    ∧ spec_vacancy_index [1/2, 3/5] = 60
    ∧ history_vacancy_index [1/2, 3/5] ≠ spec_vacancy_index [1/2, 3/5]
    ∧ history_growth_percent [1/2, 3/5] = -40
    ∧ spec_growth_percent [1/2, 3/5] = 20
    ∧ history_trend_label [1/2, 3/5] = "cooling_down" := by
  have h1 : history_vacancy_index [1/2, 3/5] = 30 := by
    norm_num [history_vacancy_index, history_first, history_last, _clamp_score,
      List.getLastD, max_def, min_def]
  have h2 : spec_vacancy_index [1/2, 3/5] = 60 := by
    norm_num [spec_vacancy_index, history_last, _clamp_score, List.getLastD,
      max_def, min_def]
  have h4 : history_growth_percent [1/2, 3/5] = -40 := by
    norm_num [history_growth_percent, history_first, history_last, List.getLastD, max_def]
  have h5 : spec_growth_percent [1/2, 3/5] = 20 := by
    norm_num [spec_growth_percent, history_last, List.getLastD]
  refine ⟨h1, h2, by rw [h1, h2]; norm_num, h4, h5, ?_⟩
  unfold history_trend_label
  rw [if_neg (by rw [h1]; norm_num), if_pos (by rw [h1]; norm_num)]

/-! ### Claim C8 -/

theorem add_demand_ne_nil (l : List (String × ℚ)) (k : String) (w : ℚ) :
    add_demand l k w ≠ [] := by
  cases l with
  | nil => simp [add_demand]
  | cons p rest =>
    unfold add_demand
    split <;> simp

theorem foldl_add_demand_ne_nil (ps : List (String × ℚ)) :
    ∀ acc : List (String × ℚ), acc ≠ [] →
      ps.foldl (fun acc p => add_demand acc p.1 p.2) acc ≠ [] := by
  induction ps with
  | nil => intro acc h; simpa using h
  | cons p rest ih =>
    intro acc _
    rw [List.foldl_cons]
    exact ih _ (add_demand_ne_nil _ _ _)

theorem demand_dict_ne_nil (ps : List (String × ℚ)) (h : ps ≠ []) :
    demand_dict ps ≠ [] := by
  cases ps with
  | nil => simp at h
  | cons p rest =>
    unfold demand_dict
    rw [List.foldl_cons]
    exact foldl_add_demand_ne_nil rest _ (add_demand_ne_nil _ _ _)

/-- Claim C8 (amended): per-skill demand weights are the sums of
`max(frequency, 0)` over the pathway's signal records with a non-NULL skill
(the `source_count + frequency×50` weighting of the claim is not used here);
weights are normalized by the maximum; the high-demand set is the first
`max(1, ceil(0.30×k))` skills in the (normalized weight, weight, skill id)
descending order; the score is 100 × |high-demand ∩ verified| / top_count
rounded to one decimal place and lies in [0,100]; and when there are no
usable signals for the pathway the result is score=0.0, coverage_ratio=0.0
and an empty top_demand_skills list. -/
theorem market_alignment_scoring (signals : List MarketSignalRow) (verified : List String) :
    ((signal_weight_pairs signals).isEmpty = true →
      compute_market_alignment signals verified = ⟨0, 0, [], []⟩)
    ∧ ((signal_weight_pairs signals).isEmpty = false →
        ((compute_market_alignment signals verified).high_demand_skill_ids = ((ordered_skill_ids (demand_dict (signal_weight_pairs signals))).take (top_count (ordered_skill_ids (demand_dict (signal_weight_pairs signals))).length))
        ∧ (compute_market_alignment signals verified).top_demand_skills = (compute_market_alignment signals verified).high_demand_skill_ids
        ∧ (compute_market_alignment signals verified).score = roundToD 1 (100 * (((((compute_market_alignment signals verified).high_demand_skill_ids.toFinset ∩ (_to_skill_ids verified).toFinset).card : ℕ) : ℚ) / (((top_count (ordered_skill_ids (demand_dict (signal_weight_pairs signals))).length) : ℕ) : ℚ)))))
    ∧ 0 ≤ (compute_market_alignment signals verified).score
    ∧ (compute_market_alignment signals verified).score ≤ 100 := by
  by_cases hp : (signal_weight_pairs signals).isEmpty = true
  · have hz : compute_market_alignment signals verified = ⟨0, 0, [], []⟩ := by
      unfold compute_market_alignment
      dsimp only
      rw [if_pos hp]
    refine ⟨fun _ => hz, fun hc => absurd hp (by simp [hc]), ?_, ?_⟩
    · rw [hz]
    · rw [hz]; norm_num
  · have hp' : (signal_weight_pairs signals).isEmpty = false := by
      cases hx : (signal_weight_pairs signals).isEmpty
      · rfl
      · exact absurd hx hp
    have hne : signal_weight_pairs signals ≠ [] := by
      cases hx : signal_weight_pairs signals with
      | nil => rw [hx] at hp'; simp at hp'
      | cons p rest => simp
    have hdict : demand_dict (signal_weight_pairs signals) ≠ [] := demand_dict_ne_nil _ hne
    have hdict' : (demand_dict (signal_weight_pairs signals)).isEmpty = false := by
      cases hx : demand_dict (signal_weight_pairs signals) with
      | nil => exact absurd hx hdict
      | cons p rest => simp
    have hcm : compute_market_alignment signals verified
        = ⟨roundToD 1 ((((((((ordered_skill_ids (demand_dict (signal_weight_pairs signals))).take (top_count (ordered_skill_ids (demand_dict (signal_weight_pairs signals))).length)).dedup.filter (fun id => (_to_skill_ids verified).contains id)).length) : ℕ) : ℚ) / (((top_count (ordered_skill_ids (demand_dict (signal_weight_pairs signals))).length) : ℕ) : ℚ)) * 100), roundToD 3 (((((((ordered_skill_ids (demand_dict (signal_weight_pairs signals))).take (top_count (ordered_skill_ids (demand_dict (signal_weight_pairs signals))).length)).dedup.filter (fun id => (_to_skill_ids verified).contains id)).length) : ℕ) : ℚ) / (((top_count (ordered_skill_ids (demand_dict (signal_weight_pairs signals))).length) : ℕ) : ℚ)), ((ordered_skill_ids (demand_dict (signal_weight_pairs signals))).take (top_count (ordered_skill_ids (demand_dict (signal_weight_pairs signals))).length)), ((ordered_skill_ids (demand_dict (signal_weight_pairs signals))).take (top_count (ordered_skill_ids (demand_dict (signal_weight_pairs signals))).length))⟩ := by
      unfold compute_market_alignment
      dsimp only
      rw [if_neg (by simp [hp']), if_neg (by simp [hdict'])]
    have htc : 0 < (top_count (ordered_skill_ids (demand_dict (signal_weight_pairs signals))).length) := by
      unfold top_count
      omega
    have htcq : (0:ℚ) < (((top_count (ordered_skill_ids (demand_dict (signal_weight_pairs signals))).length) : ℕ) : ℚ) := by exact_mod_cast htc
    have hmle : ((((ordered_skill_ids (demand_dict (signal_weight_pairs signals))).take (top_count (ordered_skill_ids (demand_dict (signal_weight_pairs signals))).length)).dedup.filter (fun id => (_to_skill_ids verified).contains id)).length) ≤ (top_count (ordered_skill_ids (demand_dict (signal_weight_pairs signals))).length) := by
      calc ((((ordered_skill_ids (demand_dict (signal_weight_pairs signals))).take (top_count (ordered_skill_ids (demand_dict (signal_weight_pairs signals))).length)).dedup.filter (fun id => (_to_skill_ids verified).contains id)).length)
          ≤ (((ordered_skill_ids (demand_dict (signal_weight_pairs signals))).take (top_count (ordered_skill_ids (demand_dict (signal_weight_pairs signals))).length)).dedup).length := List.Sublist.length_le (List.filter_sublist _)
        _ ≤ ((ordered_skill_ids (demand_dict (signal_weight_pairs signals))).take (top_count (ordered_skill_ids (demand_dict (signal_weight_pairs signals))).length)).length := List.Sublist.length_le (List.dedup_sublist _)
        _ ≤ (top_count (ordered_skill_ids (demand_dict (signal_weight_pairs signals))).length) := List.length_take_le _ _
    refine ⟨fun hc => absurd hc (by simp [hp']), fun _ => ⟨by rw [hcm], by rw [hcm], ?_⟩, ?_, ?_⟩
    · rw [hcm]
      show roundToD 1 _ = roundToD 1 _
      congr 1
      rw [dedup_filter_length_eq_inter_card]
      ring
    · rw [hcm]
      show (0:ℚ) ≤ roundToD 1 _
      calc (0:ℚ) = ((0 : ℤ) : ℚ) / 10 ^ 1 := by norm_num
        _ ≤ _ := le_roundToD_of_le (by push_cast; positivity)
    · rw [hcm]
      show roundToD 1 _ ≤ 100
      have hratio : ((((((ordered_skill_ids (demand_dict (signal_weight_pairs signals))).take (top_count (ordered_skill_ids (demand_dict (signal_weight_pairs signals))).length)).dedup.filter (fun id => (_to_skill_ids verified).contains id)).length) : ℕ) : ℚ) / (((top_count (ordered_skill_ids (demand_dict (signal_weight_pairs signals))).length) : ℕ) : ℚ) ≤ 1 := by
        rw [div_le_one htcq]
        exact_mod_cast hmle
      calc roundToD 1 _ ≤ ((1000 : ℤ) : ℚ) / 10 ^ 1 :=
            roundToD_le_of_mul_le (by push_cast; nlinarith)
        _ = 100 := by norm_num

/-- Claim C8 witness: with no signals for the pathway the analyzer returns
score=0.0, coverage_ratio=0.0 and empty skill lists (the spec's own
scenario). -/
theorem market_alignment_scoring_witness :
    compute_market_alignment [] ["x"] = ⟨0, 0, [], []⟩ :=
  (market_alignment_scoring [] ["x"]).1 rfl

/-- Claim C8 counterexample: two signals — skill "a" with source_count=100
and frequency=0, skill "b" with source_count=0 and frequency=1. The code
weights by frequency alone, ranks "b" first and scores 100.0 for
verified={"b"}; the claim's weight source_count + frequency×50 ranks "a"
first and scores 0. -/
theorem market_alignment_scoring_counterexample :
    (compute_market_alignment
      [⟨some "a", some 0, some 100⟩, ⟨some "b", some 1, some 0⟩] ["b"]).score = 100
    ∧ spec_alignment_score
      [⟨some "a", some 0, some 100⟩, ⟨some "b", some 1, some 0⟩] ["b"] = 0
    ∧ (compute_market_alignment
      [⟨some "a", some 0, some 100⟩, ⟨some "b", some 1, some 0⟩] ["b"]).score
        ≠ spec_alignment_score
          [⟨some "a", some 0, some 100⟩, ⟨some "b", some 1, some 0⟩] ["b"] := by
  have hp : signal_weight_pairs
      [⟨some "a", some 0, some 100⟩, ⟨some "b", some 1, some 0⟩]
      = [("a", (0:ℚ)), ("b", 1)] := by
    norm_num [signal_weight_pairs, List.filterMap_cons, Option.map_some', max_def]
  have hd : demand_dict [("a", (0:ℚ)), ("b", 1)] = [("a", 0), ("b", 1)] := by
    norm_num [demand_dict, add_demand, List.foldl]
    decide
  have hmax : max_frequency [("a", (0:ℚ)), ("b", 1)] = 1 := by
    norm_num [max_frequency, List.foldl, List.map, max_def]
  have hga : demand_get [("a", (0:ℚ)), ("b", 1)] "a" = 0 := by
    simp [demand_get, List.find?]
  have hgb : demand_get [("a", (0:ℚ)), ("b", 1)] "b" = 1 := by
    simp [demand_get, List.find?]
  have hna : normalized_weight [("a", (0:ℚ)), ("b", 1)] "a" = 0 := by
    simp [normalized_weight, hmax, hga]
  have hnb : normalized_weight [("a", (0:ℚ)), ("b", 1)] "b" = 1 := by
    simp [normalized_weight, hmax, hgb]
  have hgt : align_gt [("a", (0:ℚ)), ("b", 1)] "a" "b" = false := by
    simp only [align_gt, hna, hnb, hga, hgb]
    rw [if_pos (by norm_num)]
    exact decide_eq_false (by norm_num)
  have hord : ordered_skill_ids [("a", (0:ℚ)), ("b", 1)] = ["b", "a"] := by
    simp [ordered_skill_ids, sort_by, insert_by, hgt, List.map]
  have htc2 : top_count 2 = 1 := by
    norm_num [top_count, pyceil]
  have hv : _to_skill_ids ["b"] = ["b"] := rfl
  have hscore : (compute_market_alignment
      [⟨some "a", some 0, some 100⟩, ⟨some "b", some 1, some 0⟩] ["b"]).score = 100 := by
    unfold compute_market_alignment
    dsimp only
    simp only [hp, hd, hord, hv]
    rw [if_neg (by simp), if_neg (by simp)]
    simp only [List.length_cons, List.length_nil, htc2, List.take, List.dedup_cons_of_not_mem,
      List.dedup_nil, List.filter, List.contains_cons]
    norm_num [roundToD, roundHE, List.take, List.dedup, List.filter]
  -- the spec-weight pipeline on the same input
  have hps : spec_signal_weight_pairs
      [⟨some "a", some 0, some 100⟩, ⟨some "b", some 1, some 0⟩]
      = [("a", (100:ℚ)), ("b", 50)] := by
    norm_num [spec_signal_weight_pairs, List.filterMap_cons, Option.map_some']
  have hds : demand_dict [("a", (100:ℚ)), ("b", 50)] = [("a", 100), ("b", 50)] := by
    norm_num [demand_dict, add_demand, List.foldl]
    decide
  have hmaxs : max_frequency [("a", (100:ℚ)), ("b", 50)] = 100 := by
    norm_num [max_frequency, List.foldl, List.map, max_def]
  have hgas : demand_get [("a", (100:ℚ)), ("b", 50)] "a" = 100 := by
    simp [demand_get, List.find?]
  have hgbs : demand_get [("a", (100:ℚ)), ("b", 50)] "b" = 50 := by
    simp [demand_get, List.find?]
  have hnas : normalized_weight [("a", (100:ℚ)), ("b", 50)] "a" = 1 := by
    simp [normalized_weight, hmaxs, hgas]
  have hnbs : normalized_weight [("a", (100:ℚ)), ("b", 50)] "b" = 1/2 := by
    simp [normalized_weight, hmaxs, hgbs]
    norm_num
  have hgts : align_gt [("a", (100:ℚ)), ("b", 50)] "a" "b" = true := by
    simp only [align_gt, hnas, hnbs, hgas, hgbs]
    rw [if_pos (by norm_num)]
    exact decide_eq_true (by norm_num)
  have hords : ordered_skill_ids [("a", (100:ℚ)), ("b", 50)] = ["a", "b"] := by
    simp [ordered_skill_ids, sort_by, insert_by, hgts, List.map]
  have hspec : spec_alignment_score
      [⟨some "a", some 0, some 100⟩, ⟨some "b", some 1, some 0⟩] ["b"] = 0 := by
    unfold spec_alignment_score
    dsimp only
    simp only [hps, hds, hords, hv]
    rw [if_neg (by simp)]
    simp only [List.length_cons, List.length_nil, htc2, List.take, List.dedup_cons_of_not_mem,
      List.dedup_nil, List.filter, List.contains_cons]
    norm_num [List.take, List.dedup, List.filter]
    decide
  exact ⟨hscore, hspec, by rw [hscore, hspec]; norm_num⟩

/-! ### Claim C9 -/

/-- Claim C9 (confirmed): any provider failure during engineering-signal
analysis (an exception, a non-200 user or repos response, or a malformed
repos body) returns the zero-valued default payload instead of raising, and
that zero result is written to the cache; an identity with 0 repositories
yields the same zero payload (score 0.0, all metrics 0), without an
exception, and this result is itself cached; and the default payload is
zero-valued in every field. -/
theorem engineering_signal_failure_default (env : GitHubEnv)
    (h : provider_failure env = true) :
    compute_engineering_signal env = (_default_payload, some _default_payload)
    ∧ compute_engineering_signal ⟨false, 200, some 0, 200, true, []⟩
        = (_default_payload, some _default_payload)
    ∧ _default_payload.score = 0 ∧ _default_payload.public_repos = 0
    ∧ _default_payload.recent_repo_count = 0 ∧ _default_payload.total_stars = 0
    ∧ _default_payload.unique_languages = 0
    ∧ _default_payload.readme_presence_ratio = 0 := by
  have hscore0 : _compute_score 0 0 0 0 0 = 0 := by
    unfold _compute_score log1p
    norm_num [Real.log_one, roundToD, roundHE]
  have hzero : compute_engineering_signal ⟨false, 200, some 0, 200, true, []⟩
      = (_default_payload, some _default_payload) := by
    unfold compute_engineering_signal
    rw [if_neg (by simp), if_neg (by simp), if_neg (by simp), if_neg (by simp)]
    dsimp only
    rw [if_neg (by simp)]
    have hratio : _readme_ratio ([] : List GitHubRepoRow) = 0 := rfl
    simp only [List.filter_nil, List.map_nil, List.sum_nil, List.length_nil,
      List.dedup_nil, hratio, Nat.cast_zero, hscore0]
    unfold _default_payload
    rfl
  refine ⟨?_, hzero, rfl, rfl, rfl, rfl, rfl, rfl⟩
  unfold compute_engineering_signal
  by_cases h1 : env.raises = true
  · rw [if_pos h1]
  · rw [if_neg h1]
    by_cases h2 : env.user_status ≠ 200
    · rw [if_pos h2]
    · rw [if_neg h2]
      by_cases h3 : env.repos_status ≠ 200
      · rw [if_pos h3]
      · rw [if_neg h3]
        by_cases h4 : ¬env.repos_is_list
        · rw [if_pos h4]
        · exfalso
          simp only [provider_failure, Bool.or_eq_true, bne_iff_ne, Bool.not_eq_true',
            Bool.not_eq_true] at h
          rcases h with ((hr | hu) | hp) | hl
          · exact h1 hr
          · exact h2 hu
          · exact h3 hp
          · rw [Bool.not_eq_true] at h4
            simp [hl] at h4

/-- Claim C9 witness: an exceptional provider interaction yields the cached
zero default. -/
theorem engineering_signal_failure_default_witness :
    compute_engineering_signal ⟨true, 0, none, 0, false, []⟩
      = (_default_payload, some _default_payload) :=
  (engineering_signal_failure_default ⟨true, 0, none, 0, false, []⟩ rfl).1
